import Mathlib

/-!
Verification of the configuration-synthesis engine of the
Blorp deployment-config tool (`src/App.tsx`, `src/lib/utils.ts`).

The development shallowly embeds, over `List Char` / `String`:
  * the JavaScript string primitives the source uses
    (`split`, `trim`, template-literal concatenation),
  * the npm `dedent` tagged-template helper (interpolate, strip common
    indentation, trim, unescape `\n`),
  * the WHATWG `URL` constructor, restricted to the fragment the
    validator exercises,
  * the WHATWG `URLSearchParams` serializer,
and on top of those the repository's own functions, keeping their names:
`validateValue`, `defaultInstanceValid`, `hasMultipleInstances`,
`getDockerCommand`, `getDockerfile`, `getCompose`, `getKube`, `demoParams`.

Definitions come first, then all theorems.
-/

namespace Blorp

/-! ### Substring occurrence counting over character lists -/

/-- Boolean prefix test on character lists. -/
def isPre : List Char → List Char → Bool
  | [], _ => true
  | _ :: _, [] => false
  | a :: t, b :: s => a == b && isPre t s

/-- Number of positions of `s` at which the token `t` occurs
(overlapping occurrences each counted). -/
def countOcc (t : List Char) : List Char → Nat
  | [] => 0
  | c :: s => (if isPre t (c :: s) then 1 else 0) + countOcc t s

/-- `t` occurs as a contiguous substring of `s`. -/
def OccursIn (t s : List Char) : Prop := ∃ a b, s = a ++ t ++ b

/-- String-level occurrence count. -/
def strCount (t s : String) : Nat := countOcc t.data s.data

/-- String-level substring occurrence. -/
def StrOccurs (t s : String) : Prop := OccursIn t.data s.data

/-! ### Splitting and joining on a separator character -/

/-- JavaScript `String.prototype.split` with a single-character separator:
splits on every occurrence, keeping empty segments; the empty string
yields one empty segment. -/
def splitCh (sep : Char) : List Char → List (List Char)
  | [] => [[]]
  | c :: rest =>
    if c = sep then [] :: splitCh sep rest
    else
      match splitCh sep rest with
      | [] => [[c]]
      | l :: ls => (c :: l) :: ls

/-- Join character lists with a single-character separator
(inverse of `splitCh`; JavaScript `Array.prototype.join`). -/
def joinCh (sep : Char) : List (List Char) → List Char
  | [] => []
  | [l] => l
  | l :: l' :: ls => l ++ sep :: joinCh sep (l' :: ls)

/-! ### JavaScript string primitives

`jsWs` is the ASCII part of the whitespace class used by JavaScript's
`String.prototype.trim` and by the `\s` regexp class (the source inputs
modelled here are ASCII; the non-ASCII space code points accepted by
JavaScript are outside the modelled character set). -/

/-- ASCII whitespace as recognised by JavaScript `trim` / `\s`. -/
def jsWs (c : Char) : Bool :=
  c == ' ' || c == '\t' || c == '\n' || c == '\r' || c == '\x0b' || c == '\x0c'

/-- JavaScript `String.prototype.trim` on a character list. -/
def jsTrim (l : List Char) : List Char :=
  (((l.dropWhile jsWs).reverse.dropWhile jsWs)).reverse

/-- JavaScript `String.prototype.trim`. -/
def jsTrimStr (s : String) : String := ⟨jsTrim s.data⟩

/-- JavaScript `String.prototype.split` with a one-character separator. -/
def jsSplit (sep : Char) (s : String) : List String :=
  (splitCh sep s.data).map String.mk

/-! ### The npm `dedent` tagged template

Model of `dedent` (the `dedent` npm package) applied to an already
interpolated string: the package first joins the literal chunks of the
tagged template (after rewriting the escapes `\⟨newline⟩…`, `` \` `` in the
raw chunks — a rewrite that is the identity on every template of this
repository, which is why interpolation is modelled as plain
concatenation) with the interpolated values, then

  1. splits the result into lines on `\n`,
  2. computes the minimum indentation over all lines that consist of at
     least one whitespace character followed by a non-whitespace
     character,
  3. if such a line exists, drops that many leading characters from
     every line that starts with a space or a tab,
  4. rejoins the lines, trims the result, and
  5. replaces every remaining two-character sequence `\n` by a newline.
-/

/-- Indentation of a line in the sense of `dedent`'s `/^(\s+)\S+/`:
`some k` when the line starts with `k ≥ 1` whitespace characters followed
by at least one non-whitespace character. -/
def indentOf (l : List Char) : Option Nat :=
  let k := (l.takeWhile jsWs).length
  if k = 0 then none else if k = l.length then none else some k

/-- Minimum of a list of naturals, `none` for the empty list. -/
def minsOf (ks : List Nat) : Option Nat :=
  ks.foldr (fun k acc => match acc with | none => some k | some m => some (Nat.min k m)) none

/-- Does a line start with a space or a tab (`dedent`'s slicing guard)? -/
def startsSpTab : List Char → Bool
  | [] => false
  | c :: _ => c == ' ' || c == '\t'

/-- Drop the common indentation from one line, `dedent` style. -/
def stripLine (m : Nat) (l : List Char) : List Char :=
  if startsSpTab l then l.drop m else l

/-- Left-to-right replacement of the two-character sequence `\n`
by a newline character (`dedent`'s final `.replace(/\\n/g, "\n")`). -/
def replaceBN : List Char → List Char
  | [] => []
  | [c] => [c]
  | c₁ :: c₂ :: rest =>
    if c₁ = '\\' ∧ c₂ = 'n' then '\n' :: replaceBN rest
    else c₁ :: replaceBN (c₂ :: rest)

/-- The core of `dedent` on an interpolated character list. -/
def dedentChars (s : List Char) : List Char :=
  let lines := splitCh '\n' s
  let stripped :=
    match minsOf (lines.filterMap indentOf) with
    | none => lines
    | some m => lines.map (stripLine m)
  replaceBN (jsTrim (joinCh '\n' stripped))

/-- `dedent` on strings. -/
def dedent (s : String) : String := ⟨dedentChars s.data⟩

/-! ### The WHATWG `URL` constructor

Model of the platform `new URL(input)` (not repository code), restricted
to the fragment the endpoint validator exercises: absolute URLs without a
base. The model covers: stripping of leading/trailing C0-control/space
and of interior tab/CR/LF; scheme parsing (lower-cased); the special
schemes `http`, `https`, `ws`, `wss`, `ftp` (slash skipping, mandatory
non-empty host, `\` as path separator); generic `//`-authority parsing
for other schemes; opaque paths for non-special scheme without `//`;
userinfo; decimal ports bounded by 65535; forbidden host code points;
and `.`/`..` path normalisation. Not modelled (never hit by the claims,
which only consume parse success and the path component): IDNA/host
case-folding, percent-encoding inside components, and IPv6 literal
validation beyond bracket matching. Parse failure (the constructor's
`TypeError`) is `none`. -/

/-- Result of a successful URL parse: the components the source reads. -/
structure URLRec where
  scheme : String
  host : String
  port : Option Nat
  pathname : String
deriving DecidableEq

/-- C0 controls and space: stripped from both ends of the URL input. -/
def isC0OrSpace (c : Char) : Bool := c.toNat ≤ 32

/-- ASCII tab or newline: removed everywhere in the URL input. -/
def isTabOrNl (c : Char) : Bool := c == '\t' || c == '\n' || c == '\r'

/-- ASCII alphabetic (legal scheme start). -/
def isSchemeStart (c : Char) : Bool :=
  ('a' ≤ c && c ≤ 'z') || ('A' ≤ c && c ≤ 'Z')

/-- Legal non-initial scheme character. -/
def isSchemeChar (c : Char) : Bool :=
  isSchemeStart c || ('0' ≤ c && c ≤ '9') || c == '+' || c == '-' || c == '.'

/-- ASCII lower-casing (schemes are case-insensitive). -/
def lowerChar (c : Char) : Char :=
  if 'A' ≤ c && c ≤ 'Z' then Char.ofNat (c.toNat + 32) else c

/-- Split `scheme ":" rest`; `none` when no well-formed scheme ends in `:`. -/
def splitScheme (l : List Char) : Option (List Char × List Char) :=
  match l with
  | [] => none
  | c :: rest => if isSchemeStart c then go [c] rest else none
where
  go (acc : List Char) : List Char → Option (List Char × List Char)
    | [] => none
    | c :: rest =>
      if c = ':' then some (acc.reverse, rest)
      else if isSchemeChar c then go (c :: acc) rest
      else none

/-- The special schemes whose URLs the validator can meet (the `file`
scheme, also special in the standard, follows the generic branch here;
its deviations are outside the validator's inputs). -/
def specialSchemes : List (List Char) :=
  ["http".data, "https".data, "ws".data, "wss".data, "ftp".data]

/-- Forbidden host code points of the URL standard. -/
def forbiddenHost (c : Char) : Bool :=
  c == '\x00' || c == '\t' || c == '\n' || c == '\r' || c == ' ' ||
  c == '#' || c == '/' || c == ':' || c == '<' || c == '>' ||
  c == '?' || c == '@' || c == '[' || c == '\\' || c == ']' ||
  c == '^' || c == '|'

/-- ASCII decimal digit. -/
def isDigitCh (c : Char) : Bool := '0' ≤ c && c ≤ '9'

/-- Decimal value of a digit string. -/
def digitsToNat (l : List Char) : Nat :=
  l.foldl (fun acc c => acc * 10 + (c.toNat - 48)) 0

/-- Parse the text after the `:` of an authority: empty means no port,
digits up to 65535 give a port, anything else fails. -/
def parsePort (ps : List Char) : Option (Option Nat) :=
  if ps = [] then some none
  else if ps.all isDigitCh then
    if digitsToNat ps ≤ 65535 then some (some (digitsToNat ps)) else none
  else none

/-- Drop the userinfo of an authority (everything up to the last `@`). -/
def afterLastAt (l : List Char) : List Char :=
  if '@' ∈ l then (l.reverse.takeWhile (· ≠ '@')).reverse else l

/-- Parse host and optional port from the host-port part of an authority. -/
def parseHostPort (hp : List Char) : Option (List Char × Option Nat) :=
  match hp with
  | '[' :: rest =>
    let inside := rest.takeWhile (· ≠ ']')
    match rest.dropWhile (· ≠ ']') with
    | [] => none
    | _ :: afterBr =>
      match afterBr with
      | [] => some ('[' :: inside ++ [']'], none)
      | ':' :: ps =>
        match parsePort ps with
        | none => none
        | some p => some ('[' :: inside ++ [']'], p)
      | _ => none
  | _ =>
    let host := hp.takeWhile (· ≠ ':')
    if host.any forbiddenHost then none
    else
      match hp.dropWhile (· ≠ ':') with
      | [] => some (host, none)
      | _ :: ps =>
        match parsePort ps with
        | none => none
        | some p => some (host, p)

/-- Normalise the `/`-separated path segments: `..` removes the previous
segment, `.` is dropped, and a final `.`/`..` keeps the trailing slash. -/
def normSegs (out : List (List Char)) : List (List Char) → List (List Char)
  | [] => out
  | seg :: rest =>
    if seg = ['.', '.'] then
      if rest = [] then out.dropLast ++ [[]] else normSegs out.dropLast rest
    else if seg = ['.'] then
      if rest = [] then out ++ [[]] else normSegs out rest
    else normSegs (out ++ [seg]) rest

/-- The `pathname` of a parsed URL, from the raw path text (which starts
with `/`, or `\` for special schemes, when non-empty). -/
def pathnameOf (special : Bool) (pathPart : List Char) : List Char :=
  match pathPart with
  | [] => if special then ['/'] else []
  | _ :: _ =>
    let mapped := if special then pathPart.map (fun c => if c = '\\' then '/' else c) else pathPart
    '/' :: joinCh '/' (normSegs [] (splitCh '/' (mapped.drop 1)))

/-- Is `c` an authority/path delimiter (`\` only for special schemes)? -/
def isAuthDelim (special : Bool) (c : Char) : Bool :=
  c = '/' || c = '?' || c = '#' || (special && c = '\\')

/-- Parse authority, then path, producing the URL record. -/
def parseAfterScheme (scheme : List Char) (special : Bool) (rest : List Char) :
    Option URLRec :=
  let auth := rest.takeWhile (fun c => !isAuthDelim special c)
  let tail := rest.dropWhile (fun c => !isAuthDelim special c)
  match parseHostPort (afterLastAt auth) with
  | none => none
  | some (host, port) =>
    if special ∧ host = [] then none
    else
      let pathPart := tail.takeWhile (fun c => c ≠ '?' ∧ c ≠ '#')
      some ⟨⟨scheme⟩, ⟨host⟩, port, ⟨pathnameOf special pathPart⟩⟩

/-- Model of `new URL(input)` for absolute inputs; `none` models the
constructor throwing `TypeError`. -/
def parseURL (input : String) : Option URLRec :=
  let l := ((input.data.dropWhile isC0OrSpace).reverse.dropWhile isC0OrSpace).reverse
  let l := l.filter (fun c => !isTabOrNl c)
  match splitScheme l with
  | none => none
  | some (schemeRaw, rest) =>
    let scheme := schemeRaw.map lowerChar
    if scheme ∈ specialSchemes then
      parseAfterScheme scheme true (rest.dropWhile (fun c => c = '/' || c = '\\'))
    else
      match rest with
      | '/' :: '/' :: rest2 => parseAfterScheme scheme false rest2
      | _ => some ⟨⟨scheme⟩, "", none, ⟨rest.takeWhile (fun c => c ≠ '?' ∧ c ≠ '#')⟩⟩

/-! ### The repository's settings model and validator (`src/App.tsx`) -/

/-- `InstanceSelectionMode` of `App.tsx` (a string-valued enum). -/
inductive InstanceSelectionMode where
  | DEFAULT_FIRST
  | DEFAULT_RANDOM
deriving DecidableEq

/-- The string value of an `InstanceSelectionMode` member. -/
def InstanceSelectionMode.toStr : InstanceSelectionMode → String
  | .DEFAULT_FIRST => "default_first"
  | .DEFAULT_RANDOM => "default_random"

/-- `validateValue` of `App.tsx`: runs a validator that may throw
(modelled as `Except`) and converts any exception into `false`. -/
def validateValue {α : Type} (value : α) (validator : α → Except String Bool) : Bool :=
  match validator value with
  | .ok b => b
  | .error _ => false

/-- The loop body of the validator passed to `validateValue` in
`App.tsx`: each segment is given to `new URL` (throwing on parse
failure), and a parsed URL with `pathname.length > 1` throws
`"no pathname allowed"`. -/
def checkInstances : List String → Except String Bool
  | [] => .ok true
  | i :: rest =>
    match parseURL i with
    | none => .error "TypeError: Failed to construct URL"
    | some url =>
      if url.pathname.length > 1 then .error "no pathname allowed"
      else checkInstances rest

/-- `defaultInstanceValid` of `App.tsx`: validity of the raw
`REACT_APP_DEFAULT_INSTANCE` field. -/
def defaultInstanceValid (raw : String) : Bool :=
  validateValue raw (fun val => checkInstances (jsSplit ',' val))

/-- The validator as the specification words it (§4.1), for comparison
with `defaultInstanceValid`: split on `,`, trim each segment, skip
segments that are empty after trimming, and require every remaining
segment to parse as a root-only absolute URL. -/
def validateSpec (raw : String) : Bool :=
  ((splitCh ',' raw.data).map jsTrim).all fun seg =>
    seg.isEmpty ||
      (match parseURL ⟨seg⟩ with
       | some u => decide (u.pathname.length ≤ 1)
       | none => false)

/-- `hasMultipleInstances` of `App.tsx`:
`defaultInstance.split(",").length > 1`. -/
def hasMultipleInstances (defaultInstance : String) : Bool :=
  (splitCh ',' defaultInstance.data).length > 1

/-- The store state the App reads (the persisted UI `configType` plays
no part in any rendered text and is omitted). -/
structure Store where
  name : String
  defaultInstance : String
  lockToDefaultInstance : Bool
  instanceSelectionMode : InstanceSelectionMode

/-- The shared renderer input object built in `App.tsx` (`config`). -/
structure RenderConfig where
  REACT_APP_NAME : String
  REACT_APP_DEFAULT_INSTANCE : String
  REACT_APP_LOCK_TO_DEFAULT_INSTANCE : Bool
  REACT_APP_INSTANCE_SELECTION_MODE : InstanceSelectionMode
  hasMultipleInstances : Bool

/-- The `config` object `App.tsx` passes to every renderer. -/
def appConfig (s : Store) : RenderConfig where
  REACT_APP_NAME := s.name
  REACT_APP_DEFAULT_INSTANCE := s.defaultInstance
  REACT_APP_LOCK_TO_DEFAULT_INSTANCE := s.lockToDefaultInstance
  REACT_APP_INSTANCE_SELECTION_MODE := s.instanceSelectionMode
  hasMultipleInstances := hasMultipleInstances s.defaultInstance

/-! ### The four format renderers

Each renderer is the source template literal written out: the fixed raw
chunks (with the cooked values of the source's escape sequences, and the
exact indentation of `App.tsx`) concatenated with the interpolated
values, passed through the `dedent` model. -/

/-- `REACT_APP_DEFAULT_INSTANCE.split(",").map(i => i.trim()).join(",")`,
shared by all four renderers. -/
def instancesJoined (raw : String) : String :=
  ⟨joinCh ',' ((splitCh ',' raw.data).map jsTrim)⟩

/-- `lockVal`: the `1`/`0` rendering of the lock flag. -/
def lockBit (lock : Bool) : String := if lock then "1" else "0"

/-- `getDockerCommand` of `App.tsx`. -/
def getDockerCommand (c : RenderConfig) : String :=
  dedent ("\n    # pull the latest Blorp image\n    docker pull christianjuth/blorp:latest\n\n    # run it on port 8080 (host → container), passing any runtime env‑vars you need\n    docker run -d \\ \n      --name blorp \\ \n      -p 8080:80 \\ \n      -e REACT_APP_NAME=\""
    ++ jsTrimStr c.REACT_APP_NAME
    ++ "\" \\ \n      -e REACT_APP_DEFAULT_INSTANCE=\""
    ++ instancesJoined c.REACT_APP_DEFAULT_INSTANCE
    ++ "\" \\ \n      -e REACT_APP_LOCK_TO_DEFAULT_INSTANCE=\""
    ++ lockBit c.REACT_APP_LOCK_TO_DEFAULT_INSTANCE
    ++ "\" \\ \n      "
    ++ (if c.hasMultipleInstances then
          "-e REACT_APP_INSTANCE_SELECTION_MODE=\""
          ++ c.REACT_APP_INSTANCE_SELECTION_MODE.toStr
          ++ "\"  \n      "
        else "")
    ++ "christianjuth/blorp:latest\n  ")

/-- `getDockerfile` of `App.tsx`. -/
def getDockerfile (c : RenderConfig) : String :=
  jsTrimStr (dedent ("\n    FROM christianjuth/blorp:latest\n\n    ENV REACT_APP_NAME=\""
    ++ jsTrimStr c.REACT_APP_NAME
    ++ "\"\n    ENV REACT_APP_DEFAULT_INSTANCE=\""
    ++ instancesJoined c.REACT_APP_DEFAULT_INSTANCE
    ++ "\"\n    ENV REACT_APP_LOCK_TO_DEFAULT_INSTANCE=\""
    ++ lockBit c.REACT_APP_LOCK_TO_DEFAULT_INSTANCE
    ++ "\"\n    "
    ++ (if c.hasMultipleInstances then
          "ENV REACT_APP_INSTANCE_SELECTION_MODE=\""
          ++ c.REACT_APP_INSTANCE_SELECTION_MODE.toStr
          ++ "\""
        else "")
    ++ "\n\n    EXPOSE 80\n    # Build:  docker build -t blorp-custom .\n    # Run:    docker run -d --name blorp -p 8080:80 blorp-custom\n  "))

/-- `getCompose` of `App.tsx`. -/
def getCompose (c : RenderConfig) : String :=
  jsTrimStr (dedent ("\n    version: \"3.8\"\n\n    services:\n      blorp:\n        image: christianjuth/blorp:latest\n        container_name: blorp\n        ports:\n          - \"8080:80\"\n        environment:\n          REACT_APP_NAME: \""
    ++ jsTrimStr c.REACT_APP_NAME
    ++ "\"\n          REACT_APP_DEFAULT_INSTANCE: \""
    ++ instancesJoined c.REACT_APP_DEFAULT_INSTANCE
    ++ "\"\n          REACT_APP_LOCK_TO_DEFAULT_INSTANCE: \""
    ++ lockBit c.REACT_APP_LOCK_TO_DEFAULT_INSTANCE
    ++ "\""
    ++ (if c.hasMultipleInstances then
          "\n      REACT_APP_INSTANCE_SELECTION_MODE: \""
          ++ c.REACT_APP_INSTANCE_SELECTION_MODE.toStr
          ++ "\""
        else "")
    ++ "\n  "))

/-- `getKube` of `App.tsx`. -/
def getKube (c : RenderConfig) : String :=
  jsTrimStr (dedent ("\n    apiVersion: apps/v1\n    kind: Deployment\n    metadata:\n      name: blorp\n      labels:\n        app: blorp\n    spec:\n      replicas: 1\n      selector:\n        matchLabels:\n          app: blorp\n      template:\n        metadata:\n          labels:\n            app: blorp\n        spec:\n          containers:\n            - name: blorp\n              image: christianjuth/blorp:latest\n              ports:\n                - containerPort: 80\n              env:\n                - name: REACT_APP_NAME\n                  value: \""
    ++ jsTrimStr c.REACT_APP_NAME
    ++ "\"\n                - name: REACT_APP_DEFAULT_INSTANCE\n                  value: \""
    ++ instancesJoined c.REACT_APP_DEFAULT_INSTANCE
    ++ "\"\n                - name: REACT_APP_LOCK_TO_DEFAULT_INSTANCE\n                  value: \""
    ++ lockBit c.REACT_APP_LOCK_TO_DEFAULT_INSTANCE
    ++ "\"\n                "
    ++ (if c.hasMultipleInstances then
          dedent ("\n        - name: REACT_APP_INSTANCE_SELECTION_MODE\n          value: \""
            ++ c.REACT_APP_INSTANCE_SELECTION_MODE.toStr ++ "\"")
        else "")
    ++ "\n    ---\n    apiVersion: v1\n    kind: Service\n    metadata:\n      name: blorp\n      labels:\n        app: blorp\n    spec:\n      selector:\n        app: blorp\n      type: NodePort\n      ports:\n        - name: http\n          port: 80\n          targetPort: 80\n          nodePort: 30080\n  "))

/-- `getDockerCommand` applied to the App's `config` for a store state. -/
def dockerCommandOf (s : Store) : String := getDockerCommand (appConfig s)

/-- `getDockerfile` applied to the App's `config` for a store state. -/
def dockerfileOf (s : Store) : String := getDockerfile (appConfig s)

/-- `getCompose` applied to the App's `config` for a store state. -/
def composeOf (s : Store) : String := getCompose (appConfig s)

/-- `getKube` applied to the App's `config` for a store state. -/
def kubeOf (s : Store) : String := getKube (appConfig s)

/-! ### The share-link encoder (`demoParams` in `App.tsx`)

Model of the platform `URLSearchParams`: an ordered list of key/value
pairs; `set` replaces the first pair with a matching key (dropping any
later duplicates) or appends a fresh pair; `toString` serialises with
the `application/x-www-form-urlencoded` encoder (UTF-8 bytes, space as
`+`, `*`, `-`, `.`, `_` and alphanumerics verbatim, everything else as
an uppercase `%XX` escape). -/

/-- UTF-8 bytes (as naturals) of one code point. -/
def utf8Bytes (c : Char) : List Nat :=
  let n := c.toNat
  if n < 0x80 then [n]
  else if n < 0x800 then [0xC0 + n / 64, 0x80 + n % 64]
  else if n < 0x10000 then [0xE0 + n / 4096, 0x80 + (n / 64) % 64, 0x80 + n % 64]
  else [0xF0 + n / 262144, 0x80 + (n / 4096) % 64, 0x80 + (n / 64) % 64, 0x80 + n % 64]

/-- Uppercase hexadecimal digit. -/
def hexDigit (n : Nat) : Char :=
  if n < 10 then Char.ofNat (48 + n) else Char.ofNat (55 + n)

/-- Form-urlencoding of one byte. -/
def formByte (b : Nat) : List Char :=
  if b = 0x20 then ['+']
  else if (0x30 ≤ b ∧ b ≤ 0x39) ∨ (0x41 ≤ b ∧ b ≤ 0x5A) ∨ (0x61 ≤ b ∧ b ≤ 0x7A)
      ∨ b = 0x2A ∨ b = 0x2D ∨ b = 0x2E ∨ b = 0x5F then [Char.ofNat b]
  else ['%', hexDigit (b / 16), hexDigit (b % 16)]

/-- `application/x-www-form-urlencoded` percent-encoding of a string. -/
def formEncode (s : String) : String :=
  ⟨((s.data.map utf8Bytes).flatten.map formByte).flatten⟩

/-- Ordered multimap state of a `URLSearchParams` object. -/
structure URLSearchParams where
  pairs : List (String × String)

/-- Replace the first pair with key `k` and drop later pairs with key `k`
(the in-place branch of `URLSearchParams.set`). -/
def setPairs (k v : String) : List (String × String) → List (String × String)
  | [] => []
  | (k', v') :: rest =>
    if k' = k then (k, v) :: rest.filter (fun kv => kv.1 ≠ k)
    else (k', v') :: setPairs k v rest

/-- `URLSearchParams.set`. -/
def URLSearchParams.set (p : URLSearchParams) (k v : String) : URLSearchParams :=
  if p.pairs.any (fun kv => kv.1 = k) then ⟨setPairs k v p.pairs⟩
  else ⟨p.pairs ++ [(k, v)]⟩

/-- `URLSearchParams.toString`: form-urlencoded serialisation in pair
order. -/
def serializeQuery : List (String × String) → String
  | [] => ""
  | [kv] => formEncode kv.1 ++ "=" ++ formEncode kv.2
  | kv :: kv' :: rest =>
    formEncode kv.1 ++ "=" ++ formEncode kv.2 ++ "&" ++ serializeQuery (kv' :: rest)

/-- `toString` of the `URLSearchParams` model. -/
def URLSearchParams.toStr (p : URLSearchParams) : String := serializeQuery p.pairs

/-- `demoParams` of `App.tsx`: the query string of the shareable demo
link, built by four `set` calls on a fresh `URLSearchParams`. -/
def demoParams (s : Store) : String :=
  (((((URLSearchParams.mk []).set "REACT_APP_NAME" s.name).set
      "REACT_APP_DEFAULT_INSTANCE" s.defaultInstance).set
      "REACT_APP_LOCK_TO_DEFAULT_INSTANCE"
        (if s.lockToDefaultInstance then "1" else "0")).set
      "REACT_APP_INSTANCE_SELECTION_MODE" s.instanceSelectionMode.toStr).toStr

/-! ## Theorems

First a toolkit about occurrence counting, splitting/joining, the
`dedent` model and the URL model; then one theorem per claim of the
specification (with witnesses and counterexamples). -/

/-! ### Splitting and joining -/

theorem splitCh_ne_nil (sep : Char) (l : List Char) : splitCh sep l ≠ [] := by
  cases l with
  | nil => simp [splitCh]
  | cons c rest =>
    by_cases h : c = sep
    · simp [splitCh, h]
    · simp only [splitCh, h, if_false]
      cases splitCh sep rest <;> simp

theorem joinCh_splitCh (sep : Char) : ∀ l, joinCh sep (splitCh sep l) = l := by
  intro l
  induction l with
  | nil => simp [splitCh, joinCh]
  | cons c rest ih =>
    by_cases h : c = sep
    · subst h
      simp only [splitCh, if_pos rfl]
      rcases hs : splitCh c rest with _ | ⟨l0, ls⟩
      · exact absurd hs (splitCh_ne_nil c rest)
      · rw [hs] at ih
        simp [joinCh, ih]
    · simp only [splitCh, h, if_false]
      rcases hs : splitCh sep rest with _ | ⟨l0, ls⟩
      · exact absurd hs (splitCh_ne_nil sep rest)
      · rw [hs] at ih
        cases ls with
        | nil => simpa [joinCh] using congrArg (c :: ·) ih
        | cons l1 ls' => simpa [joinCh] using congrArg (c :: ·) ih

/-! ### Occurrence counting -/

theorem isPre_iff (t : List Char) : ∀ s, isPre t s = true ↔ ∃ r, s = t ++ r := by
  induction t with
  | nil => intro s; simp [isPre]
  | cons a t ih =>
    intro s
    cases s with
    | nil => simp [isPre]
    | cons b s =>
      simp only [isPre, Bool.and_eq_true, beq_iff_eq, List.cons_append, List.cons.injEq]
      constructor
      · rintro ⟨rfl, h⟩
        obtain ⟨r, rfl⟩ := (ih s).1 h
        exact ⟨r, rfl, rfl⟩
      · rintro ⟨r, rfl, rfl⟩
        exact ⟨rfl, (ih _).2 ⟨r, rfl⟩⟩

theorem occursIn_iff_countOcc (t : List Char) (ht : t ≠ []) :
    ∀ s, OccursIn t s ↔ countOcc t s ≠ 0 := by
  intro s
  induction s with
  | nil =>
    simp only [countOcc, ne_eq, not_true_eq_false, iff_false]
    rintro ⟨a, b, h⟩
    have hlen := congrArg List.length h
    simp only [List.length_nil, List.length_append] at hlen
    exact ht (List.length_eq_zero.1 (by omega))
  | cons c s ih =>
    constructor
    · rintro ⟨a, b, h⟩
      cases a with
      | nil =>
        have : isPre t (c :: s) = true := (isPre_iff t _).2 ⟨b, by simpa using h⟩
        simp [countOcc, this]
      | cons x a =>
        have hx : OccursIn t s := ⟨a, b, by simpa using congrArg List.tail h⟩
        have := ih.1 hx
        simp [countOcc]
        omega
    · intro h
      by_cases hp : isPre t (c :: s) = true
      · obtain ⟨r, hr⟩ := (isPre_iff t _).1 hp
        exact ⟨[], r, by simpa using hr⟩
      · have : countOcc t s ≠ 0 := by
          simp only [countOcc, hp, if_false] at h
          simpa using h
        obtain ⟨a, b, hab⟩ := ih.2 this
        exact ⟨c :: a, b, by simp [hab]⟩

theorem isPre_head_mem {t : List Char} (ht : t ≠ []) {c : Char} {s : List Char}
    (h : isPre t (c :: s) = true) : c ∈ t := by
  cases t with
  | nil => exact absurd rfl ht
  | cons a t =>
    simp only [isPre, Bool.and_eq_true, beq_iff_eq] at h
    simp [h.1]

theorem countOcc_cons_of_notMem {t : List Char} (ht : t ≠ []) {c : Char}
    (hc : c ∉ t) (s : List Char) : countOcc t (c :: s) = countOcc t s := by
  have : ¬ isPre t (c :: s) = true := fun h => hc (isPre_head_mem ht h)
  simp [countOcc, this]

theorem countOcc_eq_zero_of_disjoint {t : List Char} (ht : t ≠ [])
    (s : List Char) (h : ∀ x ∈ s, x ∉ t) : countOcc t s = 0 := by
  induction s with
  | nil => rfl
  | cons c s ih =>
    rw [countOcc_cons_of_notMem ht (h c (by simp)) s]
    exact ih (fun x hx => h x (by simp [hx]))

theorem countOcc_append_left_disjoint {t : List Char} (ht : t ≠ [])
    (a b : List Char) (h : ∀ x ∈ a, x ∉ t) :
    countOcc t (a ++ b) = countOcc t b := by
  induction a with
  | nil => rfl
  | cons c a ih =>
    rw [List.cons_append, countOcc_cons_of_notMem ht (h c (by simp)) (a ++ b)]
    exact ih (fun x hx => h x (by simp [hx]))

theorem isPre_take_block {t u v : List Char} (h : isPre t (u ++ v) = true)
    (hn : t.length ≤ u.length) : isPre t u = true := by
  obtain ⟨r, hr⟩ := (isPre_iff t _).1 h
  have htake : t = u.take t.length := by
    have h1 : (u ++ v).take t.length = t := by rw [hr]; simp
    rw [List.take_append_eq_append_take] at h1
    have h0 : t.length - u.length = 0 := by omega
    rw [h0] at h1
    simpa using h1.symm
  refine (isPre_iff t u).2 ⟨u.drop t.length, ?_⟩
  calc u = u.take t.length ++ u.drop t.length := (List.take_append_drop _ _).symm
    _ = t ++ u.drop t.length := by rw [← htake]

theorem isPre_overflow {t u v : List Char} (h : isPre t (u ++ v) = true)
    (hn : u.length < t.length) : t = u ++ v.take (t.length - u.length) := by
  obtain ⟨r, hr⟩ := (isPre_iff t _).1 h
  have h1 : (u ++ v).take t.length = t := by rw [hr]; simp
  rw [List.take_append_eq_append_take] at h1
  have h2 : u.take t.length = u := List.take_of_length_le (by omega)
  rw [h2] at h1
  exact h1.symm

theorem isPre_stop {t : List Char} {c : Char} (hc : c ∉ t) (u v : List Char) :
    isPre t (u ++ c :: v) = true ↔ isPre t u = true := by
  constructor
  · intro h
    by_cases hn : t.length ≤ u.length
    · exact isPre_take_block h hn
    · exfalso
      apply hc
      have hov := isPre_overflow h (by omega)
      rcases hkk : t.length - u.length with _ | k
      · omega
      · rw [hov, hkk]
        simp
  · intro h
    obtain ⟨r, hr⟩ := (isPre_iff t u).1 h
    exact (isPre_iff t _).2 ⟨r ++ c :: v, by simp [hr]⟩

theorem countOcc_append_cons {t : List Char} {c : Char} (hc : c ∉ t)
    (a b : List Char) : countOcc t (a ++ c :: b) = countOcc t a + countOcc t (c :: b) := by
  induction a with
  | nil => simp [countOcc]
  | cons x a ih =>
    have e1 : (x :: a) ++ c :: b = x :: (a ++ c :: b) := rfl
    have e2 : countOcc t (x :: (a ++ c :: b)) =
        (if isPre t (x :: (a ++ c :: b)) = true then 1 else 0) + countOcc t (a ++ c :: b) := rfl
    have e3 : countOcc t (x :: a) =
        (if isPre t (x :: a) = true then 1 else 0) + countOcc t a := rfl
    rw [e1, e2, ih, e3]
    have hpad : (if isPre t (x :: (a ++ c :: b)) = true then 1 else 0) =
        (if isPre t (x :: a) = true then 1 else 0) := by
      have hiff := isPre_stop hc (x :: a) b
      rw [List.cons_append] at hiff
      by_cases hp : isPre t (x :: a) = true
      · simp [hp, hiff.2 hp]
      · have hq : ¬ isPre t (x :: (a ++ c :: b)) = true := fun hq => hp (hiff.1 hq)
        simp [hp, hq]
    rw [hpad]
    omega

theorem countOcc_append_last {t : List Char} (ht : t ≠ []) {c : Char} (hc : c ∉ t)
    (a b : List Char) : countOcc t ((a ++ [c]) ++ b) = countOcc t (a ++ [c]) + countOcc t b := by
  have h1 : (a ++ [c]) ++ b = a ++ c :: b := by simp
  have h2 : a ++ [c] = a ++ c :: ([] : List Char) := rfl
  rw [h1, h2, countOcc_append_cons hc a b, countOcc_append_cons hc a []]
  rw [countOcc_cons_of_notMem ht hc b, countOcc_cons_of_notMem ht hc []]
  simp [countOcc]


theorem countOcc_joinCh {t : List Char} (ht : t ≠ []) {sep : Char} (hsep : sep ∉ t) :
    ∀ ls, countOcc t (joinCh sep ls) = (ls.map (countOcc t)).sum := by
  intro ls
  induction ls with
  | nil => simp [joinCh, countOcc]
  | cons l ls ih =>
    cases ls with
    | nil => simp [joinCh]
    | cons l' ls' =>
      have : joinCh sep (l :: l' :: ls') = l ++ sep :: joinCh sep (l' :: ls') := rfl
      rw [this, countOcc_append_cons hsep, countOcc_cons_of_notMem ht hsep, ih]
      simp

theorem countOcc_splitCh {t : List Char} (ht : t ≠ []) {sep : Char} (hsep : sep ∉ t)
    (s : List Char) :
    countOcc t s = ((splitCh sep s).map (countOcc t)).sum := by
  conv_lhs => rw [← joinCh_splitCh sep s]
  exact countOcc_joinCh ht hsep _

/-! ### `dedent` preserves occurrence counts of clean tokens

A token that is non-empty, whitespace-free, and contains neither `\`
nor `n` can be neither created nor destroyed by the `dedent` pipeline:
indentation stripping and trimming only delete whitespace characters,
and the `\n`-unescape only touches spans containing `\` or `n`. -/

theorem mem_takeWhile_pred {p : Char → Bool} :
    ∀ {l : List Char} {x : Char}, x ∈ l.takeWhile p → p x = true := by
  intro l
  induction l with
  | nil => intro x hx; simp [List.takeWhile] at hx
  | cons c l ih =>
    intro x hx
    by_cases hc : p c = true
    · rw [List.takeWhile_cons_of_pos hc] at hx
      rcases List.mem_cons.1 hx with rfl | hx
      · exact hc
      · exact ih hx
    · rw [List.takeWhile_cons_of_neg hc] at hx
      simp at hx

theorem pred_of_mem_take_le_takeWhile {p : Char → Bool} :
    ∀ (l : List Char) (m : Nat), m ≤ (l.takeWhile p).length →
      ∀ x ∈ l.take m, p x = true := by
  intro l
  induction l with
  | nil => intro m _ x hx; simp at hx
  | cons c l ih =>
    intro m hm x hx
    by_cases hc : p c = true
    · rw [List.takeWhile_cons_of_pos hc] at hm
      cases m with
      | zero => simp at hx
      | succ m' =>
        rw [List.take_succ_cons] at hx
        rcases List.mem_cons.1 hx with rfl | hx
        · exact hc
        · exact ih m' (by simpa using hm) x hx
    · rw [List.takeWhile_cons_of_neg hc] at hm
      simp at hm
      subst hm
      simp at hx

theorem all_pred_of_takeWhile_length {p : Char → Bool} :
    ∀ (l : List Char), (l.takeWhile p).length = l.length → ∀ x ∈ l, p x = true := by
  intro l
  induction l with
  | nil => intro _ x hx; simp at hx
  | cons c l ih =>
    intro hlen x hx
    by_cases hc : p c = true
    · rw [List.takeWhile_cons_of_pos hc] at hlen
      simp only [List.length_cons, Nat.succ.injEq] at hlen
      rcases List.mem_cons.1 hx with rfl | hx
      · exact hc
      · exact ih hlen x hx
    · rw [List.takeWhile_cons_of_neg hc] at hlen
      simp at hlen

theorem minsOf_cons (k' : Nat) (ks : List Nat) :
    minsOf (k' :: ks) = match minsOf ks with
      | none => some k'
      | some m' => some (Nat.min k' m') := rfl

theorem minsOf_eq_none {ks : List Nat} : minsOf ks = none ↔ ks = [] := by
  cases ks with
  | nil => simp [minsOf]
  | cons k ks =>
    rw [minsOf_cons]
    rcases minsOf ks with _ | m <;> simp

theorem minsOf_le {ks : List Nat} {m : Nat} (h : minsOf ks = some m) :
    ∀ k ∈ ks, m ≤ k := by
  induction ks generalizing m with
  | nil => simp [minsOf] at h
  | cons k' ks ih =>
    intro k hk
    rw [minsOf_cons] at h
    rcases hmm : minsOf ks with _ | m'
    · rw [hmm] at h
      have hks : ks = [] := minsOf_eq_none.1 hmm
      subst hks
      simp only [Option.some.injEq] at h
      simp only [List.mem_singleton] at hk
      omega
    · rw [hmm] at h
      simp only [Option.some.injEq] at h
      rcases List.mem_cons.1 hk with rfl | hk2
      · exact h ▸ Nat.min_le_left _ _
      · exact le_trans (h ▸ Nat.min_le_right _ _) (ih hmm k hk2)

theorem ws_clash {t : List Char} (hws : ∀ x ∈ t, jsWs x = false) {x : Char}
    (hxt : x ∈ t) (hx : jsWs x = true) : False := by
  have h0 := hws x hxt
  rw [h0] at hx
  exact Bool.false_ne_true hx

theorem countOcc_stripLine {t : List Char} (ht : t ≠ [])
    (hws : ∀ x ∈ t, jsWs x = false) {m : Nat} {l : List Char}
    (hind : ∀ k, indentOf l = some k → m ≤ k) :
    countOcc t (stripLine m l) = countOcc t l := by
  unfold stripLine
  by_cases hst : startsSpTab l = true
  · simp only [hst, if_true]
    by_cases hall : (l.takeWhile jsWs).length = l.length
    · have hwsl : ∀ x ∈ l, jsWs x = true := all_pred_of_takeWhile_length l hall
      have hd1 : ∀ x ∈ l, x ∉ t := fun x hx hxt => ws_clash hws hxt (hwsl x hx)
      rw [countOcc_eq_zero_of_disjoint ht l hd1,
          countOcc_eq_zero_of_disjoint ht (l.drop m)
            (fun x hx => hd1 x (List.mem_of_mem_drop hx))]
    · have hk0 : (l.takeWhile jsWs).length ≠ 0 := by
        cases l with
        | nil => simp [startsSpTab] at hst
        | cons c l' =>
          have hc : jsWs c = true := by
            simp only [startsSpTab, Bool.or_eq_true, beq_iff_eq] at hst
            rcases hst with rfl | rfl <;> simp [jsWs]
          rw [List.takeWhile_cons_of_pos hc]
          simp
      have hm : m ≤ (l.takeWhile jsWs).length := by
        apply hind
        unfold indentOf
        simp only [hk0, if_false, hall, if_false]
      have hd : ∀ x ∈ l.take m, x ∉ t := fun x hx hxt =>
        ws_clash hws hxt (pred_of_mem_take_le_takeWhile l m hm x hx)
      conv_rhs => rw [← List.take_append_drop m l]
      rw [countOcc_append_left_disjoint ht _ _ hd]
  · simp [hst]

theorem countOcc_dropWhile_ws {t : List Char} (ht : t ≠ [])
    (hws : ∀ x ∈ t, jsWs x = false) (l : List Char) :
    countOcc t (l.dropWhile jsWs) = countOcc t l := by
  conv_rhs => rw [← List.takeWhile_append_dropWhile (p := jsWs) (l := l)]
  rw [countOcc_append_left_disjoint ht _ _ (fun x hx hxt =>
    ws_clash hws hxt (mem_takeWhile_pred hx))]

theorem countOcc_append_ws_right {t : List Char} (ht : t ≠ [])
    (hws : ∀ x ∈ t, jsWs x = false) (a b : List Char)
    (hb : ∀ x ∈ b, jsWs x = true) :
    countOcc t (a ++ b) = countOcc t a := by
  cases b with
  | nil => simp
  | cons c b' =>
    have hc : c ∉ t := fun hct => ws_clash hws hct (hb c (by simp))
    rw [countOcc_append_cons hc a b']
    have : countOcc t (c :: b') = 0 :=
      countOcc_eq_zero_of_disjoint ht _ (fun x hx hxt => ws_clash hws hxt (hb x hx))
    omega

theorem countOcc_jsTrim {t : List Char} (ht : t ≠ [])
    (hws : ∀ x ∈ t, jsWs x = false) (l : List Char) :
    countOcc t (jsTrim l) = countOcc t l := by
  unfold jsTrim
  have step1 : countOcc t (l.dropWhile jsWs) = countOcc t l :=
    countOcc_dropWhile_ws ht hws l
  rw [← step1]
  set u := l.dropWhile jsWs with hu
  have hdecomp : u = ((u.reverse.dropWhile jsWs).reverse) ++ ((u.reverse.takeWhile jsWs).reverse) := by
    conv_lhs => rw [← List.reverse_reverse u,
      ← List.takeWhile_append_dropWhile (p := jsWs) (l := u.reverse)]
    rw [List.reverse_append]
  conv_rhs => rw [hdecomp]
  rw [countOcc_append_ws_right ht hws _ _ (fun x hx =>
    mem_takeWhile_pred (List.mem_reverse.1 hx))]

theorem isPre_replaceBN : ∀ (s t : List Char), '\\' ∉ t → 'n' ∉ t → '\n' ∉ t →
    isPre t (replaceBN s) = isPre t s
  | [], _, _, _, _ => rfl
  | [c], t, _, _, _ => by rw [show replaceBN [c] = [c] from rfl]
  | c₁ :: c₂ :: rest, t, hb, hn, hnl => by
    rw [show replaceBN (c₁ :: c₂ :: rest) =
      (if c₁ = '\\' ∧ c₂ = 'n' then '\n' :: replaceBN rest
       else c₁ :: replaceBN (c₂ :: rest)) from rfl]
    by_cases hm : c₁ = '\\' ∧ c₂ = 'n'
    · rw [if_pos hm]
      obtain ⟨rfl, rfl⟩ := hm
      cases t with
      | nil => rfl
      | cons h t' =>
        have hh1 : (h == '\n') = false := by
          simp only [beq_eq_false_iff_ne, ne_eq]
          intro h'
          exact hnl (h' ▸ List.mem_cons_self h t')
        have hh2 : (h == '\\') = false := by
          simp only [beq_eq_false_iff_ne, ne_eq]
          intro h'
          exact hb (h' ▸ List.mem_cons_self h t')
        have e1 : isPre (h :: t') ('\n' :: replaceBN rest)
            = ((h == '\n') && isPre t' (replaceBN rest)) := rfl
        have e2 : isPre (h :: t') ('\\' :: 'n' :: rest)
            = ((h == '\\') && isPre t' ('n' :: rest)) := rfl
        rw [e1, e2, hh1, hh2]
        simp
    · rw [if_neg hm]
      cases t with
      | nil => rfl
      | cons h t' =>
        have e1 : isPre (h :: t') (c₁ :: replaceBN (c₂ :: rest))
            = ((h == c₁) && isPre t' (replaceBN (c₂ :: rest))) := rfl
        have e2 : isPre (h :: t') (c₁ :: c₂ :: rest)
            = ((h == c₁) && isPre t' (c₂ :: rest)) := rfl
        rw [e1, e2, isPre_replaceBN (c₂ :: rest) t'
          (fun hx => hb (List.mem_cons_of_mem h hx))
          (fun hx => hn (List.mem_cons_of_mem h hx))
          (fun hx => hnl (List.mem_cons_of_mem h hx))]

theorem countOcc_replaceBN : ∀ (s : List Char) {t : List Char}, t ≠ [] →
    '\\' ∉ t → 'n' ∉ t → '\n' ∉ t →
    countOcc t (replaceBN s) = countOcc t s
  | [], _, _, _, _, _ => rfl
  | [c], t, _, _, _, _ => by rw [show replaceBN [c] = [c] from rfl]
  | c₁ :: c₂ :: rest, t, ht, hb, hn, hnl => by
    by_cases hm : c₁ = '\\' ∧ c₂ = 'n'
    · obtain ⟨rfl, rfl⟩ := hm
      rw [show replaceBN ('\\' :: 'n' :: rest) = '\n' :: replaceBN rest from by
        simp [replaceBN]]
      rw [countOcc_cons_of_notMem ht hnl, countOcc_cons_of_notMem ht hb,
          countOcc_cons_of_notMem ht hn]
      exact countOcc_replaceBN rest ht hb hn hnl
    · have hR : replaceBN (c₁ :: c₂ :: rest) = c₁ :: replaceBN (c₂ :: rest) := by
        rw [show replaceBN (c₁ :: c₂ :: rest) =
          (if c₁ = '\\' ∧ c₂ = 'n' then '\n' :: replaceBN rest
           else c₁ :: replaceBN (c₂ :: rest)) from rfl, if_neg hm]
      rw [hR]
      have e1 : countOcc t (c₁ :: replaceBN (c₂ :: rest))
          = (if isPre t (c₁ :: replaceBN (c₂ :: rest)) = true then 1 else 0)
            + countOcc t (replaceBN (c₂ :: rest)) := rfl
      have e2 : countOcc t (c₁ :: c₂ :: rest)
          = (if isPre t (c₁ :: c₂ :: rest) = true then 1 else 0)
            + countOcc t (c₂ :: rest) := rfl
      rw [e1, e2, countOcc_replaceBN (c₂ :: rest) ht hb hn hnl]
      have hpad : isPre t (c₁ :: replaceBN (c₂ :: rest)) = isPre t (c₁ :: c₂ :: rest) := by
        have := isPre_replaceBN (c₁ :: c₂ :: rest) t hb hn hnl
        rw [hR] at this
        exact this
      rw [hpad]

theorem countOcc_dedentChars {t : List Char} (ht : t ≠ [])
    (hws : ∀ x ∈ t, jsWs x = false) (hb : '\\' ∉ t) (hn : 'n' ∉ t)
    (s : List Char) : countOcc t (dedentChars s) = countOcc t s := by
  have hnl : '\n' ∉ t := fun h => by
    have := hws _ h
    simp [jsWs] at this
  show countOcc t (replaceBN (jsTrim (joinCh '\n'
    (match minsOf ((splitCh '\n' s).filterMap indentOf) with
     | none => splitCh '\n' s
     | some m => (splitCh '\n' s).map (stripLine m))))) = countOcc t s
  rcases hmin : minsOf ((splitCh '\n' s).filterMap indentOf) with _ | m
  · show countOcc t (replaceBN (jsTrim (joinCh '\n' (splitCh '\n' s)))) = countOcc t s
    rw [countOcc_replaceBN _ ht hb hn hnl, countOcc_jsTrim ht hws,
        joinCh_splitCh]
  · show countOcc t (replaceBN (jsTrim (joinCh '\n'
      ((splitCh '\n' s).map (stripLine m))))) = countOcc t s
    rw [countOcc_replaceBN _ ht hb hn hnl, countOcc_jsTrim ht hws,
        countOcc_joinCh ht hnl, List.map_map]
    have hcong : ((splitCh '\n' s).map (countOcc t ∘ stripLine m))
        = (splitCh '\n' s).map (countOcc t) := by
      apply List.map_congr_left
      intro l hl
      exact countOcc_stripLine ht hws (fun k hk =>
        minsOf_le hmin k (List.mem_filterMap.2 ⟨l, hl, hk⟩))
    rw [hcong, ← countOcc_splitCh ht hnl]

theorem countOcc_dedent {t s : String} (ht : t.data ≠ [])
    (hws : ∀ x ∈ t.data, jsWs x = false) (hb : '\\' ∉ t.data) (hn : 'n' ∉ t.data) :
    strCount t (dedent s) = strCount t s :=
  countOcc_dedentChars ht hws hb hn s.data


/-! ### `dedent` preserves occurrences of line-bound tokens

A token without newline, `\` or `n`, whose first and last characters are
not whitespace, survives the `dedent` pipeline: it lives inside a single
line, indentation stripping and trimming only remove whitespace around
it, and the `\n`-unescape never touches it. -/

theorem occursIn_reverse {t s : List Char} (h : OccursIn t s) :
    OccursIn t.reverse s.reverse := by
  obtain ⟨a, b, rfl⟩ := h
  exact ⟨b.reverse, a.reverse, by simp⟩

theorem dropWhile_eq_drop (p : Char → Bool) :
    ∀ l : List Char, l.dropWhile p = l.drop (l.takeWhile p).length := by
  intro l
  induction l with
  | nil => rfl
  | cons c l ih =>
    by_cases hc : p c = true
    · rw [List.dropWhile_cons_of_pos hc, List.takeWhile_cons_of_pos hc]
      simpa using ih
    · rw [List.dropWhile_cons_of_neg hc, List.takeWhile_cons_of_neg hc]
      simp

theorem occursIn_drop_le_takeWhile {th : Char} {t' : List Char}
    (hth : jsWs th = false) :
    ∀ (m : Nat) (l : List Char), OccursIn (th :: t') l →
      m ≤ (l.takeWhile jsWs).length → OccursIn (th :: t') (l.drop m) := by
  intro m
  induction m with
  | zero => intro l h _; simpa using h
  | succ m ih =>
    intro l hocc hm
    cases l with
    | nil =>
      obtain ⟨a, b, hab⟩ := hocc
      have := congrArg List.length hab
      simp at this
      omega
    | cons c l' =>
      have hc : jsWs c = true := by
        by_contra hcf
        rw [List.takeWhile_cons_of_neg (by simpa using hcf)] at hm
        simp at hm
      rw [List.takeWhile_cons_of_pos hc] at hm
      simp only [List.length_cons] at hm
      have hocc' : OccursIn (th :: t') l' := by
        obtain ⟨a, b, hab⟩ := hocc
        cases a with
        | nil =>
          exfalso
          simp only [List.nil_append, List.cons_append, List.cons.injEq] at hab
          obtain ⟨rfl, -⟩ := hab
          rw [hth] at hc
          exact Bool.false_ne_true hc
        | cons x a' =>
          refine ⟨a', b, ?_⟩
          have := congrArg List.tail hab
          simpa using this
      have := ih l' hocc' (by omega)
      simpa using this

theorem occursIn_dropWhile_ws {th : Char} {t' l : List Char}
    (hth : jsWs th = false) (hocc : OccursIn (th :: t') l) :
    OccursIn (th :: t') (l.dropWhile jsWs) := by
  rw [dropWhile_eq_drop]
  exact occursIn_drop_le_takeWhile hth _ l hocc (le_refl _)

theorem occursIn_trimRight {tf : List Char} {tl : Char} {l : List Char}
    (htl : jsWs tl = false) (hocc : OccursIn (tf ++ [tl]) l) :
    OccursIn (tf ++ [tl]) ((l.reverse.dropWhile jsWs).reverse) := by
  have h1 : OccursIn (tl :: tf.reverse) l.reverse := by
    have := occursIn_reverse hocc
    simpa using this
  have h2 : OccursIn (tl :: tf.reverse) (l.reverse.dropWhile jsWs) :=
    occursIn_dropWhile_ws htl h1
  have h3 := occursIn_reverse h2
  simpa using h3

theorem occursIn_jsTrim {th : Char} {tmid : List Char} {tl : Char} {l : List Char}
    (hth : jsWs th = false) (htl : jsWs tl = false)
    (hocc : OccursIn (th :: tmid ++ [tl]) l) :
    OccursIn (th :: tmid ++ [tl]) (jsTrim l) := by
  unfold jsTrim
  have h1 : OccursIn (th :: (tmid ++ [tl])) (l.dropWhile jsWs) :=
    occursIn_dropWhile_ws hth (by simpa using hocc)
  have h2 : OccursIn ((th :: tmid) ++ [tl])
      (((l.dropWhile jsWs).reverse.dropWhile jsWs).reverse) :=
    occursIn_trimRight htl (by simpa using h1)
  simpa using h2

theorem takeWhile_all_append {p : Char → Bool} {t : List Char}
    (ht : ∀ x ∈ t, p x = true) (b : List Char) :
    (t ++ b).takeWhile p = t ++ b.takeWhile p := by
  induction t with
  | nil => rfl
  | cons c t ih =>
    rw [List.cons_append, List.takeWhile_cons_of_pos (ht c (by simp))]
    rw [ih (fun x hx => ht x (by simp [hx]))]
    rfl

theorem splitCh_shape (sep : Char) :
    ∀ l : List Char, ∃ tail, splitCh sep l = (l.takeWhile (fun c => !(c == sep))) :: tail := by
  intro l
  induction l with
  | nil => exact ⟨[], rfl⟩
  | cons c rest ih =>
    by_cases hc : c = sep
    · subst hc
      refine ⟨splitCh c rest, ?_⟩
      have h1 : splitCh c (c :: rest) = [] :: splitCh c rest := by simp [splitCh]
      have h2 : (c :: rest).takeWhile (fun x => !(x == c)) = [] :=
        List.takeWhile_cons_of_neg (by simp)
      rw [h1, h2]
    · obtain ⟨tail, htail⟩ := ih
      refine ⟨tail, ?_⟩
      have h1 : splitCh sep (c :: rest) = (match splitCh sep rest with
        | [] => [[c]]
        | l :: ls => (c :: l) :: ls) := by simp [splitCh, hc]
      have h2 : (c :: rest).takeWhile (fun x => !(x == sep))
          = c :: rest.takeWhile (fun x => !(x == sep)) :=
        List.takeWhile_cons_of_pos (by simp [hc])
      rw [h1, htail, h2]

theorem occursIn_some_line {t : List Char} (hnl : '\n' ∉ t) :
    ∀ (a b : List Char), ∃ l ∈ splitCh '\n' (a ++ t ++ b), OccursIn t l := by
  intro a
  induction a with
  | nil =>
    intro b
    obtain ⟨tail, htail⟩ := splitCh_shape '\n' (t ++ b)
    have hall : ∀ x ∈ t, (fun c => !(c == '\n')) x = true := by
      intro x hx
      simp only [Bool.not_eq_true', beq_eq_false_iff_ne, ne_eq]
      intro h
      exact hnl (h ▸ hx)
    have htw : (t ++ b).takeWhile (fun c => !(c == '\n'))
        = t ++ b.takeWhile (fun c => !(c == '\n')) :=
      takeWhile_all_append hall b
    refine ⟨t ++ b.takeWhile (fun c => !(c == '\n')), ?_,
      ⟨[], b.takeWhile (fun c => !(c == '\n')), by simp⟩⟩
    have hgoal : ([] : List Char) ++ t ++ b = t ++ b := by simp
    rw [hgoal, htail, htw]
    simp
  | cons c a' ih =>
    intro b
    by_cases hc : c = '\n'
    · subst hc
      have hshape : ('\n' :: a') ++ t ++ b = '\n' :: (a' ++ t ++ b) := rfl
      rw [hshape, show splitCh '\n' ('\n' :: (a' ++ t ++ b))
        = [] :: splitCh '\n' (a' ++ t ++ b) from by simp [splitCh]]
      obtain ⟨l, hl, hocc⟩ := ih b
      exact ⟨l, List.mem_cons_of_mem _ hl, hocc⟩
    · have hshape : (c :: a') ++ t ++ b = c :: (a' ++ t ++ b) := rfl
      rw [hshape]
      obtain ⟨l, hl, hocc⟩ := ih b
      rcases hsp : splitCh '\n' (a' ++ t ++ b) with _ | ⟨l0, ls⟩
      · exact absurd hsp (splitCh_ne_nil _ _)
      · have hsp2 : splitCh '\n' (a' ++ (t ++ b)) = l0 :: ls := by
          rw [← List.append_assoc]
          exact hsp
        rw [show splitCh '\n' (c :: (a' ++ t ++ b)) = (c :: l0) :: ls from by
          simp [splitCh, hc, hsp2]]
        rw [hsp] at hl
        rcases List.mem_cons.1 hl with rfl | hl2
        · obtain ⟨x, y, hxy⟩ := hocc
          exact ⟨c :: l, by simp, c :: x, y, by simp [hxy]⟩
        · exact ⟨l, by simp [hl2], hocc⟩

theorem occursIn_stripLine {th : Char} {t' l : List Char} {m : Nat}
    (hth : jsWs th = false) (hocc : OccursIn (th :: t') l)
    (hind : ∀ k, indentOf l = some k → m ≤ k) :
    OccursIn (th :: t') (stripLine m l) := by
  unfold stripLine
  by_cases hst : startsSpTab l = true
  · simp only [hst, if_true]
    by_cases hall : (l.takeWhile jsWs).length = l.length
    · exfalso
      have hmem : th ∈ l := by
        obtain ⟨a, b, rfl⟩ := hocc
        simp
      have := all_pred_of_takeWhile_length l hall th hmem
      rw [hth] at this
      exact Bool.false_ne_true this
    · have hk0 : (l.takeWhile jsWs).length ≠ 0 := by
        cases l with
        | nil => simp [startsSpTab] at hst
        | cons c l' =>
          have hc : jsWs c = true := by
            simp only [startsSpTab, Bool.or_eq_true, beq_iff_eq] at hst
            rcases hst with rfl | rfl <;> simp [jsWs]
          rw [List.takeWhile_cons_of_pos hc]
          simp
      have hm : m ≤ (l.takeWhile jsWs).length := by
        apply hind
        unfold indentOf
        simp only [hk0, if_false, hall, if_false]
      exact occursIn_drop_le_takeWhile hth m l hocc hm
  · rw [if_neg hst]
    exact hocc

theorem occursIn_joinCh_of_mem {t l : List Char} {sep : Char} :
    ∀ {ls : List (List Char)}, l ∈ ls → OccursIn t l → OccursIn t (joinCh sep ls) := by
  intro ls
  induction ls with
  | nil => intro h; simp at h
  | cons x xs ih =>
    intro hl hocc
    cases xs with
    | nil =>
      simp only [List.mem_singleton] at hl
      subst hl
      exact hocc
    | cons x' xs' =>
      rw [show joinCh sep (x :: x' :: xs') = x ++ sep :: joinCh sep (x' :: xs') from rfl]
      rcases List.mem_cons.1 hl with rfl | hl2
      · obtain ⟨a, b, rfl⟩ := hocc
        exact ⟨a, b ++ sep :: joinCh sep (x' :: xs'), by simp⟩
      · obtain ⟨a, b, hab⟩ := ih hl2 hocc
        exact ⟨x ++ sep :: a, b, by simp [hab]⟩

theorem replaceBN_id {t : List Char} (hb : '\\' ∉ t) : replaceBN t = t := by
  induction t with
  | nil => rfl
  | cons c rest ih =>
    cases rest with
    | nil => rfl
    | cons d rest' =>
      have hc : ¬ (c = '\\' ∧ d = 'n') := fun ⟨h1, _⟩ => hb (by simp [h1])
      rw [show replaceBN (c :: d :: rest') = (if c = '\\' ∧ d = 'n'
        then '\n' :: replaceBN rest' else c :: replaceBN (d :: rest')) from rfl,
        if_neg hc, ih (fun hx => hb (List.mem_cons_of_mem c hx))]

theorem replaceBN_append : ∀ (a b : List Char),
    ¬ (a.getLast? = some '\\' ∧ b.head? = some 'n') →
    replaceBN (a ++ b) = replaceBN a ++ replaceBN b
  | [], b, _ => by simp [replaceBN]
  | [c], b, h => by
    cases b with
    | nil => simp [replaceBN]
    | cons d b' =>
      have hcd : ¬ (c = '\\' ∧ d = 'n') := by
        intro ⟨h1, h2⟩
        exact h (by simp [h1, h2])
      rw [show ([c] : List Char) ++ d :: b' = c :: d :: b' from rfl]
      rw [show replaceBN (c :: d :: b') = (if c = '\\' ∧ d = 'n'
        then '\n' :: replaceBN b' else c :: replaceBN (d :: b')) from rfl, if_neg hcd]
      rfl
  | c₁ :: c₂ :: a'', b, h => by
    have hshape : (c₁ :: c₂ :: a'') ++ b = c₁ :: c₂ :: (a'' ++ b) := rfl
    rw [hshape]
    by_cases hm : c₁ = '\\' ∧ c₂ = 'n'
    · rw [show replaceBN (c₁ :: c₂ :: (a'' ++ b)) = (if c₁ = '\\' ∧ c₂ = 'n'
        then '\n' :: replaceBN (a'' ++ b) else c₁ :: replaceBN (c₂ :: (a'' ++ b))) from rfl,
        if_pos hm]
      rw [show replaceBN (c₁ :: c₂ :: a'') = (if c₁ = '\\' ∧ c₂ = 'n'
        then '\n' :: replaceBN a'' else c₁ :: replaceBN (c₂ :: a'')) from rfl, if_pos hm]
      rw [replaceBN_append a'' b ?side]
      · rfl
      case side =>
        cases a'' with
        | nil =>
          intro ⟨h1, _⟩
          simp at h1
        | cons e a₃ =>
          intro ⟨h1, h2⟩
          apply h
          constructor
          · rw [List.getLast?_cons_cons, List.getLast?_cons_cons] at *
            exact h1
          · exact h2
    · rw [show replaceBN (c₁ :: c₂ :: (a'' ++ b)) = (if c₁ = '\\' ∧ c₂ = 'n'
        then '\n' :: replaceBN (a'' ++ b) else c₁ :: replaceBN (c₂ :: (a'' ++ b))) from rfl,
        if_neg hm]
      rw [show replaceBN (c₁ :: c₂ :: a'') = (if c₁ = '\\' ∧ c₂ = 'n'
        then '\n' :: replaceBN a'' else c₁ :: replaceBN (c₂ :: a'')) from rfl, if_neg hm]
      rw [show (c₂ :: (a'' ++ b)) = (c₂ :: a'') ++ b from rfl]
      rw [replaceBN_append (c₂ :: a'') b ?side2]
      · rfl
      case side2 =>
        intro ⟨h1, h2⟩
        apply h
        constructor
        · rw [List.getLast?_cons_cons]
          exact h1
        · exact h2

theorem mem_of_getLastQ : ∀ {a : List Char} {c : Char}, a.getLast? = some c → c ∈ a
  | [], _, h => by simp at h
  | [x], c, h => by
    simp only [List.getLast?_singleton, Option.some.injEq] at h
    simp [h]
  | x :: y :: a', c, h => by
    rw [List.getLast?_cons_cons] at h
    exact List.mem_cons_of_mem x (mem_of_getLastQ h)

theorem occursIn_replaceBN {t s : List Char} (ht : t ≠ []) (hb : '\\' ∉ t)
    (hn : t.head? ≠ some 'n') (hocc : OccursIn t s) : OccursIn t (replaceBN s) := by
  obtain ⟨a, b, rfl⟩ := hocc
  have h1 : replaceBN (a ++ (t ++ b)) = replaceBN a ++ replaceBN (t ++ b) := by
    apply replaceBN_append
    intro ⟨_, h2⟩
    cases t with
    | nil => exact ht rfl
    | cons x t' =>
      simp only [List.cons_append, List.head?_cons, Option.some.injEq] at h2
      exact hn (by simp [h2])
  have h2 : replaceBN (t ++ b) = replaceBN t ++ replaceBN b := by
    apply replaceBN_append
    intro ⟨h3, _⟩
    exact hb (mem_of_getLastQ h3)
  rw [List.append_assoc, h1, h2, replaceBN_id hb]
  exact ⟨replaceBN a, replaceBN b, by simp⟩

theorem occursIn_dedentChars {th : Char} {tmid : List Char} {tl : Char} {s : List Char}
    (hth : jsWs th = false) (htl : jsWs tl = false)
    (hb : '\\' ∉ th :: tmid ++ [tl]) (hn : th ≠ 'n')
    (hnl : '\n' ∉ th :: tmid ++ [tl])
    (hocc : OccursIn (th :: tmid ++ [tl]) s) :
    OccursIn (th :: tmid ++ [tl]) (dedentChars s) := by
  set t := th :: tmid ++ [tl] with htdef
  have ht : t ≠ [] := by simp [htdef]
  obtain ⟨a, b, rfl⟩ := hocc
  obtain ⟨l, hl, hoccl⟩ := occursIn_some_line hnl a b
  show OccursIn t (replaceBN (jsTrim (joinCh '\n'
    (match minsOf ((splitCh '\n' (a ++ t ++ b)).filterMap indentOf) with
     | none => splitCh '\n' (a ++ t ++ b)
     | some m => (splitCh '\n' (a ++ t ++ b)).map (stripLine m)))))
  have hjoin : OccursIn t (joinCh '\n'
      (match minsOf ((splitCh '\n' (a ++ t ++ b)).filterMap indentOf) with
       | none => splitCh '\n' (a ++ t ++ b)
       | some m => (splitCh '\n' (a ++ t ++ b)).map (stripLine m))) := by
    rcases hmin : minsOf ((splitCh '\n' (a ++ t ++ b)).filterMap indentOf) with _ | m
    · exact occursIn_joinCh_of_mem hl hoccl
    · refine occursIn_joinCh_of_mem (List.mem_map_of_mem (stripLine m) hl) ?_
      have : OccursIn (th :: (tmid ++ [tl])) (stripLine m l) := by
        apply occursIn_stripLine hth (by simpa [htdef] using hoccl)
        intro k hk
        exact minsOf_le hmin k (List.mem_filterMap.2 ⟨l, hl, hk⟩)
      simpa [htdef] using this
  have htrim : OccursIn t (jsTrim (joinCh '\n'
      (match minsOf ((splitCh '\n' (a ++ t ++ b)).filterMap indentOf) with
       | none => splitCh '\n' (a ++ t ++ b)
       | some m => (splitCh '\n' (a ++ t ++ b)).map (stripLine m)))) := by
    have := occursIn_jsTrim hth htl (by simpa [htdef] using hjoin)
    simpa [htdef] using this
  exact occursIn_replaceBN ht hb (by simp [htdef, hn]) htrim



/-! ### The endpoint validator -/

theorem splitCh_of_not_mem {sep : Char} : ∀ {l : List Char}, sep ∉ l →
    splitCh sep l = [l] := by
  intro l
  induction l with
  | nil => intro _; rfl
  | cons c rest ih =>
    intro h
    have hc : ¬ c = sep := fun he => h (by simp [he])
    have hr : sep ∉ rest := fun hm => h (List.mem_cons_of_mem c hm)
    rw [show splitCh sep (c :: rest) = (match splitCh sep rest with
      | [] => [[c]]
      | l :: ls => (c :: l) :: ls) from by simp [splitCh, hc], ih hr]

theorem defaultInstanceValid_eq_true_iff (raw : String) :
    defaultInstanceValid raw = true ↔ checkInstances (jsSplit ',' raw) = .ok true := by
  simp only [defaultInstanceValid, validateValue]
  rcases h : checkInstances (jsSplit ',' raw) with e | b
  · simp
  · cases b <;> simp

theorem checkInstances_ok_iff : ∀ ls : List String,
    checkInstances ls = .ok true ↔
      ∀ i ∈ ls, ∃ u, parseURL i = some u ∧ u.pathname.length ≤ 1 := by
  intro ls
  induction ls with
  | nil => simp [checkInstances]
  | cons i rest ih =>
    have hstep : checkInstances (i :: rest) =
        (match parseURL i with
         | none => Except.error "TypeError: Failed to construct URL"
         | some url =>
           if 1 < url.pathname.length then Except.error "no pathname allowed"
           else checkInstances rest) := rfl
    rcases hp : parseURL i with _ | u
    · rw [hp] at hstep
      rw [hstep]
      constructor
      · intro h
        exact absurd h (by simp)
      · intro h
        obtain ⟨u, hu, -⟩ := h i (by simp)
        rw [hp] at hu
        exact absurd hu (by simp)
    · rw [hp] at hstep
      have hstep2 : checkInstances (i :: rest) =
          if 1 < u.pathname.length then Except.error "no pathname allowed"
          else checkInstances rest := by rw [hstep]
      by_cases hlen : u.pathname.length > 1
      · rw [hstep2, if_pos (by omega)]
        constructor
        · intro h
          exact absurd h (by simp)
        · intro h
          obtain ⟨u', hu', hlen'⟩ := h i (by simp)
          rw [hp] at hu'
          obtain rfl := Option.some.inj hu'
          omega
      · rw [hstep2, if_neg (by omega)]
        rw [ih]
        constructor
        · intro h j hj
          rcases List.mem_cons.1 hj with rfl | hj2
          · exact ⟨u, hp, by omega⟩
          · exact h j hj2
        · intro h j hj
          exact h j (List.mem_cons_of_mem i hj)

/-- C1 (counterexample): on the empty raw string the specified validator
(trim segments, skip empties) accepts, but the implementation rejects:
`""` splits into one empty segment, which is passed untrimmed and
unskipped to the URL parser, whose failure makes the result `false`. -/
theorem c1_empty_string_invalid :
    defaultInstanceValid "" = false ∧ validateSpec "" = true := by
  constructor
  · rfl
  · rfl

/-- C1 (amended): `validate(raw)` is `true` iff every comma-separated
segment of `raw` — taken verbatim, with empty segments included rather
than skipped — parses as a root-only absolute URL (path at most `/`).
In particular `validate("")` is `false`. -/
theorem c1_validator_characterization (raw : String) :
    defaultInstanceValid raw = true ↔
      ∀ seg ∈ jsSplit ',' raw, ∃ u, parseURL seg = some u ∧ u.pathname.length ≤ 1 := by
  rw [defaultInstanceValid_eq_true_iff, checkInstances_ok_iff]

/-- C4: the validator never propagates an exception: whenever the inner
checking loop raises (URL parse failure or the root-path check), the
`validateValue` wrapper converts the exception into the result `false` —
for any validator, and for the endpoint validator in particular. -/
theorem c4_validator_never_throws :
    (∀ (α : Type) (value : α) (validator : α → Except String Bool) (e : String),
        validator value = .error e → validateValue value validator = false) ∧
    (∀ raw e : String, checkInstances (jsSplit ',' raw) = .error e →
        defaultInstanceValid raw = false) := by
  constructor
  · intro α value validator e h
    unfold validateValue
    rw [h]
  · intro raw e h
    simp only [defaultInstanceValid, validateValue]
    rw [h]

/-- C4 witness: the empty raw string makes the inner loop raise a URL
parse error, and the validator returns `false`. -/
theorem c4_witness :
    checkInstances (jsSplit ',' "") = .error "TypeError: Failed to construct URL" ∧
    defaultInstanceValid "" = false :=
  ⟨rfl, c4_validator_never_throws.2 "" "TypeError: Failed to construct URL" rfl⟩

/-- C5: a raw string in which some comma-separated segment parses as an
absolute URL with a path longer than the bare `/` is rejected. -/
theorem c5_path_rejected (raw seg : String) (hseg : seg ∈ jsSplit ',' raw)
    (u : URLRec) (hp : parseURL seg = some u) (hlen : 1 < u.pathname.length) :
    defaultInstanceValid raw = false := by
  by_contra h
  rw [Bool.not_eq_false] at h
  rw [defaultInstanceValid_eq_true_iff, checkInstances_ok_iff] at h
  obtain ⟨u', hu', hlen'⟩ := h seg hseg
  rw [hp] at hu'
  obtain rfl := Option.some.inj hu'
  omega

/-- C5 witness: `validate("https://a.com,https://b.com/x") = false`
because the second segment has path `/x`. -/
theorem c5_witness :
    "https://b.com/x" ∈ jsSplit ',' "https://a.com,https://b.com/x" ∧
    parseURL "https://b.com/x" = some ⟨"https", "b.com", none, "/x"⟩ ∧
    defaultInstanceValid "https://a.com,https://b.com/x" = false :=
  ⟨by decide, by decide,
   c5_path_rejected _ "https://b.com/x" (by decide)
     ⟨"https", "b.com", none, "/x"⟩ (by decide) (by decide)⟩

/-- C6: a raw string that is a single root-only absolute URL with no
comma validates to `true`. -/
theorem c6_single_root_url_valid (raw : String) (hnc : ',' ∉ raw.data)
    (u : URLRec) (hp : parseURL raw = some u) (hroot : u.pathname = "/") :
    defaultInstanceValid raw = true := by
  rw [defaultInstanceValid_eq_true_iff, checkInstances_ok_iff]
  intro seg hseg
  have hs : jsSplit ',' raw = [raw] := by
    unfold jsSplit
    rw [splitCh_of_not_mem hnc]
    rfl
  rw [hs] at hseg
  simp only [List.mem_singleton] at hseg
  subst hseg
  exact ⟨u, hp, by rw [hroot]; decide⟩

/-- C6 witness: `validate("https://lemmy.world") = true`. -/
theorem c6_witness :
    ',' ∉ "https://lemmy.world".data ∧
    parseURL "https://lemmy.world" = some ⟨"https", "lemmy.world", none, "/"⟩ ∧
    defaultInstanceValid "https://lemmy.world" = true :=
  ⟨by decide, by decide,
   c6_single_root_url_valid "https://lemmy.world" (by decide)
     ⟨"https", "lemmy.world", none, "/"⟩ (by decide) (by decide)⟩



/-! ### The share-link encoder -/

theorem demoParams_eq (s : Store) :
    demoParams s =
      "REACT_APP_NAME" ++ "=" ++ formEncode s.name ++ "&" ++
        ("REACT_APP_DEFAULT_INSTANCE" ++ "=" ++ formEncode s.defaultInstance ++ "&" ++
          ("REACT_APP_LOCK_TO_DEFAULT_INSTANCE" ++ "=" ++
            (if s.lockToDefaultInstance then "1" else "0") ++ "&" ++
            ("REACT_APP_INSTANCE_SELECTION_MODE" ++ "=" ++
              formEncode s.instanceSelectionMode.toStr))) := by
  rcases s with ⟨name, inst, lock, mode⟩
  cases lock <;> cases mode <;> rfl

/-- C3: the share-link encoder always produces the four keys in the fixed
order name, endpoints, lock, selection mode — the selection-mode key is
present even for a single endpoint — with form-urlencoded values, the
lock carried as `"1"`/`"0"`; identical settings therefore yield the
identical query string. -/
theorem c3_encoder_fixed_shape (s : Store) :
    demoParams s =
      "REACT_APP_NAME" ++ "=" ++ formEncode s.name ++ "&" ++
        ("REACT_APP_DEFAULT_INSTANCE" ++ "=" ++ formEncode s.defaultInstance ++ "&" ++
          ("REACT_APP_LOCK_TO_DEFAULT_INSTANCE" ++ "=" ++
            (if s.lockToDefaultInstance then "1" else "0") ++ "&" ++
            ("REACT_APP_INSTANCE_SELECTION_MODE" ++ "=" ++
              formEncode s.instanceSelectionMode.toStr))) ∧
    StrOccurs "REACT_APP_INSTANCE_SELECTION_MODE" (demoParams s) := by
  refine ⟨demoParams_eq s, ?_⟩
  unfold StrOccurs
  refine ⟨("REACT_APP_NAME" ++ "=" ++ formEncode s.name ++ "&" ++
    ("REACT_APP_DEFAULT_INSTANCE" ++ "=" ++ formEncode s.defaultInstance ++ "&" ++
      ("REACT_APP_LOCK_TO_DEFAULT_INSTANCE" ++ "=" ++
        (if s.lockToDefaultInstance then "1" else "0") ++ "&" ++ ""))).data,
    ("=" ++ formEncode s.instanceSelectionMode.toStr).data, ?_⟩
  rw [demoParams_eq s]
  simp [String.data_append, List.append_assoc]

set_option maxRecDepth 40000 in
/-- C10: the encoder embeds the name and the raw endpoints string
verbatim (up to percent-encoding) while every renderer trims the name
and re-joins trimmed endpoint segments, so for settings with surrounding
whitespace the values carried in the demo link differ from the values
embedded in the artifacts: shown on
`{name := " Blorp ", endpoints := "https://a.com, https://b.com"}`. -/
theorem c10_encoder_untrimmed_vs_renderers :
    demoParams ⟨" Blorp ", "https://a.com, https://b.com", false, .DEFAULT_FIRST⟩ =
      "REACT_APP_NAME=+Blorp+&REACT_APP_DEFAULT_INSTANCE=https%3A%2F%2Fa.com%2C+https%3A%2F%2Fb.com&REACT_APP_LOCK_TO_DEFAULT_INSTANCE=0&REACT_APP_INSTANCE_SELECTION_MODE=default_first" ∧
    strCount "REACT_APP_NAME=\"Blorp\""
      (dockerCommandOf ⟨" Blorp ", "https://a.com, https://b.com", false, .DEFAULT_FIRST⟩) ≠ 0 ∧
    strCount "REACT_APP_DEFAULT_INSTANCE=\"https://a.com,https://b.com\""
      (dockerCommandOf ⟨" Blorp ", "https://a.com, https://b.com", false, .DEFAULT_FIRST⟩) ≠ 0 ∧
    jsTrimStr " Blorp " ≠ " Blorp " ∧
    instancesJoined "https://a.com, https://b.com" ≠ "https://a.com, https://b.com" := by
  refine ⟨by decide, by decide, by decide, by decide, by decide⟩

/-! ### The orchestration-manifest scenario -/

set_option maxRecDepth 40000 in
/-- C8: for `{displayName := "Acme", endpoints := ["https://a.com",
"https://b.com"], lock := true, selectionMode := DEFAULT_RANDOM}` the
orchestration-manifest renderer emits two documents separated by one
`---` delimiter, a NodePort service exposing nodePort 30080 onto
container port 80, and the environment entry `value: "default_random"`. -/
theorem c8_kube_scenario :
    strCount "---" (kubeOf ⟨"Acme", "https://a.com,https://b.com", true, .DEFAULT_RANDOM⟩) = 1 ∧
    strCount "type: NodePort"
      (kubeOf ⟨"Acme", "https://a.com,https://b.com", true, .DEFAULT_RANDOM⟩) ≠ 0 ∧
    strCount "nodePort: 30080"
      (kubeOf ⟨"Acme", "https://a.com,https://b.com", true, .DEFAULT_RANDOM⟩) ≠ 0 ∧
    strCount "targetPort: 80"
      (kubeOf ⟨"Acme", "https://a.com,https://b.com", true, .DEFAULT_RANDOM⟩) ≠ 0 ∧
    strCount "containerPort: 80"
      (kubeOf ⟨"Acme", "https://a.com,https://b.com", true, .DEFAULT_RANDOM⟩) ≠ 0 ∧
    strCount "value: \"default_random\""
      (kubeOf ⟨"Acme", "https://a.com,https://b.com", true, .DEFAULT_RANDOM⟩) = 1 := by
  refine ⟨by decide, by decide, by decide, by decide, by decide, by decide⟩



/-! ### Occurrence counts through the renderer templates

Every renderer interpolates its values inside double quotes (or before a
fixed following chunk), so for a token not containing the boundary
characters the count over the whole template is the sum of the counts of
the chunks. -/

theorem headQ_append {f : List Char} {x : Char} (h : f.head? = some x)
    (r : List Char) : (f ++ r).head? = some x := by
  cases f with
  | nil => simp at h
  | cons c f' =>
    simp only [List.head?_cons, Option.some.injEq] at h
    simp [h]

theorem countOcc_append_of_getLastQ {t a : List Char} (ht : t ≠ []) {c : Char}
    (hl : a.getLast? = some c) (hc : c ∉ t) (b : List Char) :
    countOcc t (a ++ b) = countOcc t a + countOcc t b := by
  have ha : a ≠ [] := by
    intro h
    rw [h] at hl
    simp at hl
  have hdecomp : a = a.dropLast ++ [c] := by
    have h1 := List.dropLast_append_getLast ha
    have h2 : a.getLast ha = c := by
      have := List.getLast?_eq_getLast a ha
      rw [hl] at this
      exact (Option.some.inj this).symm
    rw [h2] at h1
    exact h1.symm
  rw [hdecomp]
  exact countOcc_append_last ht hc _ b

theorem countOcc_append_of_headQ {t b : List Char} {c : Char}
    (hh : b.head? = some c) (hc : c ∉ t) (a : List Char) :
    countOcc t (a ++ b) = countOcc t a + countOcc t b := by
  cases b with
  | nil => simp at hh
  | cons x b' =>
    simp only [List.head?_cons, Option.some.injEq] at hh
    subst hh
    exact countOcc_append_cons hc a b'

theorem countOcc_chain9 {t : List Char} (ht : t ≠ [])
    (f0 v1 f1 v2 f2 v3 f3 c f4 : List Char)
    {x0 x1h x1l x2h x2l x3h x3l x4 : Char}
    (h0 : f0.getLast? = some x0) (hx0 : x0 ∉ t)
    (h1h : f1.head? = some x1h) (hx1h : x1h ∉ t)
    (h1l : f1.getLast? = some x1l) (hx1l : x1l ∉ t)
    (h2h : f2.head? = some x2h) (hx2h : x2h ∉ t)
    (h2l : f2.getLast? = some x2l) (hx2l : x2l ∉ t)
    (h3h : f3.head? = some x3h) (hx3h : x3h ∉ t)
    (h3l : f3.getLast? = some x3l) (hx3l : x3l ∉ t)
    (h4 : f4.head? = some x4) (hx4 : x4 ∉ t) :
    countOcc t (f0 ++ (v1 ++ (f1 ++ (v2 ++ (f2 ++ (v3 ++ (f3 ++ (c ++ f4)))))))) =
      countOcc t f0 + countOcc t v1 + countOcc t f1 + countOcc t v2 + countOcc t f2 +
      countOcc t v3 + countOcc t f3 + countOcc t c + countOcc t f4 := by
  rw [countOcc_append_of_getLastQ ht h0 hx0,
      countOcc_append_of_headQ (headQ_append h1h _) hx1h v1,
      countOcc_append_of_getLastQ ht h1l hx1l,
      countOcc_append_of_headQ (headQ_append h2h _) hx2h v2,
      countOcc_append_of_getLastQ ht h2l hx2l,
      countOcc_append_of_headQ (headQ_append h3h _) hx3h v3,
      countOcc_append_of_getLastQ ht h3l hx3l,
      countOcc_append_of_headQ h4 hx4 c]
  omega

set_option maxRecDepth 40000 in
theorem countOcc_dockerCommandOf {t : List Char} (ht : t ≠ [])
    (hws : ∀ x ∈ t, jsWs x = false) (hb : '\\' ∉ t) (hn : 'n' ∉ t)
    (hq : '"' ∉ t) (hc : 'c' ∉ t) (s : Store) :
    countOcc t (dockerCommandOf s).data =
      countOcc t ("\n    # pull the latest Blorp image\n    docker pull christianjuth/blorp:latest\n\n    # run it on port 8080 (host → container), passing any runtime env‑vars you need\n    docker run -d \\ \n      --name blorp \\ \n      -p 8080:80 \\ \n      -e REACT_APP_NAME=\"" : String).data
      + countOcc t (jsTrim s.name.data)
      + countOcc t ("\" \\ \n      -e REACT_APP_DEFAULT_INSTANCE=\"" : String).data
      + countOcc t (instancesJoined s.defaultInstance).data
      + countOcc t ("\" \\ \n      -e REACT_APP_LOCK_TO_DEFAULT_INSTANCE=\"" : String).data
      + countOcc t (lockBit s.lockToDefaultInstance).data
      + countOcc t ("\" \\ \n      " : String).data
      + countOcc t ((if hasMultipleInstances s.defaultInstance then
          ("-e REACT_APP_INSTANCE_SELECTION_MODE=\""
            ++ s.instanceSelectionMode.toStr ++ "\"  \n      " : String)
          else "") : String).data
      + countOcc t ("christianjuth/blorp:latest\n  " : String).data := by
  have hsp : ' ' ∉ t := fun hmem => ws_clash hws hmem (by decide)
  have hstart : (dockerCommandOf s).data = dedentChars
      (("\n    # pull the latest Blorp image\n    docker pull christianjuth/blorp:latest\n\n    # run it on port 8080 (host → container), passing any runtime env‑vars you need\n    docker run -d \\ \n      --name blorp \\ \n      -p 8080:80 \\ \n      -e REACT_APP_NAME=\"" : String).data
        ++ ((jsTrimStr s.name).data
        ++ (("\" \\ \n      -e REACT_APP_DEFAULT_INSTANCE=\"" : String).data
        ++ ((instancesJoined s.defaultInstance).data
        ++ (("\" \\ \n      -e REACT_APP_LOCK_TO_DEFAULT_INSTANCE=\"" : String).data
        ++ ((lockBit s.lockToDefaultInstance).data
        ++ (("\" \\ \n      " : String).data
        ++ (((if hasMultipleInstances s.defaultInstance then
              ("-e REACT_APP_INSTANCE_SELECTION_MODE=\""
                ++ s.instanceSelectionMode.toStr ++ "\"  \n      " : String)
              else "") : String).data
        ++ ("christianjuth/blorp:latest\n  " : String).data)))))))) := by
    show (dedent _).data = _
    rw [show ∀ y : String, (dedent y).data = dedentChars y.data from fun y => rfl]
    congr 1
    simp [appConfig, String.data_append, List.append_assoc]
  rw [hstart, countOcc_dedentChars ht hws hb hn,
      countOcc_chain9 ht _ _ _ _ _ _ _ _ _
        (by decide) hq (by decide) hq (by decide) hq (by decide) hq
        (by decide) hq (by decide) hq (by decide) hsp (by decide) hc]
  rfl



set_option maxRecDepth 40000 in
theorem countOcc_dockerfileOf {t : List Char} (ht : t ≠ [])
    (hws : ∀ x ∈ t, jsWs x = false) (hb : '\\' ∉ t) (hn : 'n' ∉ t)
    (hq : '"' ∉ t) (s : Store) :
    countOcc t (dockerfileOf s).data =
      countOcc t ("\n    FROM christianjuth/blorp:latest\n\n    ENV REACT_APP_NAME=\"" : String).data
      + countOcc t (jsTrim s.name.data)
      + countOcc t ("\"\n    ENV REACT_APP_DEFAULT_INSTANCE=\"" : String).data
      + countOcc t (instancesJoined s.defaultInstance).data
      + countOcc t ("\"\n    ENV REACT_APP_LOCK_TO_DEFAULT_INSTANCE=\"" : String).data
      + countOcc t (lockBit s.lockToDefaultInstance).data
      + countOcc t ("\"\n    " : String).data
      + countOcc t ((if hasMultipleInstances s.defaultInstance then ("ENV REACT_APP_INSTANCE_SELECTION_MODE=\"" ++ s.instanceSelectionMode.toStr ++ "\"" : String) else "") : String).data
      + countOcc t ("\n\n    EXPOSE 80\n    # Build:  docker build -t blorp-custom .\n    # Run:    docker run -d --name blorp -p 8080:80 blorp-custom\n  " : String).data := by
  have hsp : ' ' ∉ t := fun hmem => ws_clash hws hmem (by decide)
  have hnl : '\n' ∉ t := fun hmem => ws_clash hws hmem (by decide)
  have hdata : (("\n    FROM christianjuth/blorp:latest\n\n    ENV REACT_APP_NAME=\"" : String)
      ++ jsTrimStr s.name
      ++ ("\"\n    ENV REACT_APP_DEFAULT_INSTANCE=\"" : String)
      ++ instancesJoined s.defaultInstance
      ++ ("\"\n    ENV REACT_APP_LOCK_TO_DEFAULT_INSTANCE=\"" : String)
      ++ lockBit s.lockToDefaultInstance
      ++ ("\"\n    " : String)
      ++ ((if hasMultipleInstances s.defaultInstance then ("ENV REACT_APP_INSTANCE_SELECTION_MODE=\"" ++ s.instanceSelectionMode.toStr ++ "\"" : String) else "") : String)
      ++ ("\n\n    EXPOSE 80\n    # Build:  docker build -t blorp-custom .\n    # Run:    docker run -d --name blorp -p 8080:80 blorp-custom\n  " : String)).data =
      ("\n    FROM christianjuth/blorp:latest\n\n    ENV REACT_APP_NAME=\"" : String).data
      ++ ((jsTrimStr s.name).data
      ++ (("\"\n    ENV REACT_APP_DEFAULT_INSTANCE=\"" : String).data
      ++ ((instancesJoined s.defaultInstance).data
      ++ (("\"\n    ENV REACT_APP_LOCK_TO_DEFAULT_INSTANCE=\"" : String).data
      ++ ((lockBit s.lockToDefaultInstance).data
      ++ (("\"\n    " : String).data
      ++ (((if hasMultipleInstances s.defaultInstance then ("ENV REACT_APP_INSTANCE_SELECTION_MODE=\"" ++ s.instanceSelectionMode.toStr ++ "\"" : String) else "") : String).data
      ++ ("\n\n    EXPOSE 80\n    # Build:  docker build -t blorp-custom .\n    # Run:    docker run -d --name blorp -p 8080:80 blorp-custom\n  " : String).data))))))) := by
    simp [String.data_append, List.append_assoc]
  have hstart : (dockerfileOf s).data = jsTrim (dedentChars
      (("\n    FROM christianjuth/blorp:latest\n\n    ENV REACT_APP_NAME=\"" : String).data
      ++ ((jsTrimStr s.name).data
      ++ (("\"\n    ENV REACT_APP_DEFAULT_INSTANCE=\"" : String).data
      ++ ((instancesJoined s.defaultInstance).data
      ++ (("\"\n    ENV REACT_APP_LOCK_TO_DEFAULT_INSTANCE=\"" : String).data
      ++ ((lockBit s.lockToDefaultInstance).data
      ++ (("\"\n    " : String).data
      ++ (((if hasMultipleInstances s.defaultInstance then ("ENV REACT_APP_INSTANCE_SELECTION_MODE=\"" ++ s.instanceSelectionMode.toStr ++ "\"" : String) else "") : String).data
      ++ ("\n\n    EXPOSE 80\n    # Build:  docker build -t blorp-custom .\n    # Run:    docker run -d --name blorp -p 8080:80 blorp-custom\n  " : String).data))))))))) := by
    show (jsTrimStr (dedent _)).data = _
    rw [show ∀ y : String, (jsTrimStr y).data = jsTrim y.data from fun y => rfl,
        show ∀ y : String, (dedent y).data = dedentChars y.data from fun y => rfl,
        ← hdata]
    rfl
  rw [hstart, countOcc_jsTrim ht hws, countOcc_dedentChars ht hws hb hn,
      countOcc_chain9 ht _ _ _ _ _ _ _ _ _
        (by decide) hq (by decide) hq (by decide) hq (by decide) hq
        (by decide) hq (by decide) hq (by decide) hsp (by decide) hnl]
  rfl

set_option maxRecDepth 40000 in
theorem countOcc_composeOf {t : List Char} (ht : t ≠ [])
    (hws : ∀ x ∈ t, jsWs x = false) (hb : '\\' ∉ t) (hn : 'n' ∉ t)
    (hq : '"' ∉ t) (s : Store) :
    countOcc t (composeOf s).data =
      countOcc t ("\n    version: \"3.8\"\n\n    services:\n      blorp:\n        image: christianjuth/blorp:latest\n        container_name: blorp\n        ports:\n          - \"8080:80\"\n        environment:\n          REACT_APP_NAME: \"" : String).data
      + countOcc t (jsTrim s.name.data)
      + countOcc t ("\"\n          REACT_APP_DEFAULT_INSTANCE: \"" : String).data
      + countOcc t (instancesJoined s.defaultInstance).data
      + countOcc t ("\"\n          REACT_APP_LOCK_TO_DEFAULT_INSTANCE: \"" : String).data
      + countOcc t (lockBit s.lockToDefaultInstance).data
      + countOcc t ("\"" : String).data
      + countOcc t ((if hasMultipleInstances s.defaultInstance then ("\n      REACT_APP_INSTANCE_SELECTION_MODE: \"" ++ s.instanceSelectionMode.toStr ++ "\"" : String) else "") : String).data
      + countOcc t ("\n  " : String).data := by
  have hsp : ' ' ∉ t := fun hmem => ws_clash hws hmem (by decide)
  have hnl : '\n' ∉ t := fun hmem => ws_clash hws hmem (by decide)
  have hdata : (("\n    version: \"3.8\"\n\n    services:\n      blorp:\n        image: christianjuth/blorp:latest\n        container_name: blorp\n        ports:\n          - \"8080:80\"\n        environment:\n          REACT_APP_NAME: \"" : String)
      ++ jsTrimStr s.name
      ++ ("\"\n          REACT_APP_DEFAULT_INSTANCE: \"" : String)
      ++ instancesJoined s.defaultInstance
      ++ ("\"\n          REACT_APP_LOCK_TO_DEFAULT_INSTANCE: \"" : String)
      ++ lockBit s.lockToDefaultInstance
      ++ ("\"" : String)
      ++ ((if hasMultipleInstances s.defaultInstance then ("\n      REACT_APP_INSTANCE_SELECTION_MODE: \"" ++ s.instanceSelectionMode.toStr ++ "\"" : String) else "") : String)
      ++ ("\n  " : String)).data =
      ("\n    version: \"3.8\"\n\n    services:\n      blorp:\n        image: christianjuth/blorp:latest\n        container_name: blorp\n        ports:\n          - \"8080:80\"\n        environment:\n          REACT_APP_NAME: \"" : String).data
      ++ ((jsTrimStr s.name).data
      ++ (("\"\n          REACT_APP_DEFAULT_INSTANCE: \"" : String).data
      ++ ((instancesJoined s.defaultInstance).data
      ++ (("\"\n          REACT_APP_LOCK_TO_DEFAULT_INSTANCE: \"" : String).data
      ++ ((lockBit s.lockToDefaultInstance).data
      ++ (("\"" : String).data
      ++ (((if hasMultipleInstances s.defaultInstance then ("\n      REACT_APP_INSTANCE_SELECTION_MODE: \"" ++ s.instanceSelectionMode.toStr ++ "\"" : String) else "") : String).data
      ++ ("\n  " : String).data))))))) := by
    simp [String.data_append, List.append_assoc]
  have hstart : (composeOf s).data = jsTrim (dedentChars
      (("\n    version: \"3.8\"\n\n    services:\n      blorp:\n        image: christianjuth/blorp:latest\n        container_name: blorp\n        ports:\n          - \"8080:80\"\n        environment:\n          REACT_APP_NAME: \"" : String).data
      ++ ((jsTrimStr s.name).data
      ++ (("\"\n          REACT_APP_DEFAULT_INSTANCE: \"" : String).data
      ++ ((instancesJoined s.defaultInstance).data
      ++ (("\"\n          REACT_APP_LOCK_TO_DEFAULT_INSTANCE: \"" : String).data
      ++ ((lockBit s.lockToDefaultInstance).data
      ++ (("\"" : String).data
      ++ (((if hasMultipleInstances s.defaultInstance then ("\n      REACT_APP_INSTANCE_SELECTION_MODE: \"" ++ s.instanceSelectionMode.toStr ++ "\"" : String) else "") : String).data
      ++ ("\n  " : String).data))))))))) := by
    show (jsTrimStr (dedent _)).data = _
    rw [show ∀ y : String, (jsTrimStr y).data = jsTrim y.data from fun y => rfl,
        show ∀ y : String, (dedent y).data = dedentChars y.data from fun y => rfl,
        ← hdata]
    rfl
  rw [hstart, countOcc_jsTrim ht hws, countOcc_dedentChars ht hws hb hn,
      countOcc_chain9 ht _ _ _ _ _ _ _ _ _
        (by decide) hq (by decide) hq (by decide) hq (by decide) hq
        (by decide) hq (by decide) hq (by decide) hq (by decide) hnl]
  rfl

set_option maxRecDepth 40000 in
theorem countOcc_kubeOf {t : List Char} (ht : t ≠ [])
    (hws : ∀ x ∈ t, jsWs x = false) (hb : '\\' ∉ t) (hn : 'n' ∉ t)
    (hq : '"' ∉ t) (s : Store) :
    countOcc t (kubeOf s).data =
      countOcc t ("\n    apiVersion: apps/v1\n    kind: Deployment\n    metadata:\n      name: blorp\n      labels:\n        app: blorp\n    spec:\n      replicas: 1\n      selector:\n        matchLabels:\n          app: blorp\n      template:\n        metadata:\n          labels:\n            app: blorp\n        spec:\n          containers:\n            - name: blorp\n              image: christianjuth/blorp:latest\n              ports:\n                - containerPort: 80\n              env:\n                - name: REACT_APP_NAME\n                  value: \"" : String).data
      + countOcc t (jsTrim s.name.data)
      + countOcc t ("\"\n                - name: REACT_APP_DEFAULT_INSTANCE\n                  value: \"" : String).data
      + countOcc t (instancesJoined s.defaultInstance).data
      + countOcc t ("\"\n                - name: REACT_APP_LOCK_TO_DEFAULT_INSTANCE\n                  value: \"" : String).data
      + countOcc t (lockBit s.lockToDefaultInstance).data
      + countOcc t ("\"\n                " : String).data
      + countOcc t ((if hasMultipleInstances s.defaultInstance then dedent ("\n        - name: REACT_APP_INSTANCE_SELECTION_MODE\n          value: \"" ++ s.instanceSelectionMode.toStr ++ "\"") else "") : String).data
      + countOcc t ("\n    ---\n    apiVersion: v1\n    kind: Service\n    metadata:\n      name: blorp\n      labels:\n        app: blorp\n    spec:\n      selector:\n        app: blorp\n      type: NodePort\n      ports:\n        - name: http\n          port: 80\n          targetPort: 80\n          nodePort: 30080\n  " : String).data := by
  have hsp : ' ' ∉ t := fun hmem => ws_clash hws hmem (by decide)
  have hnl : '\n' ∉ t := fun hmem => ws_clash hws hmem (by decide)
  have hdata : (("\n    apiVersion: apps/v1\n    kind: Deployment\n    metadata:\n      name: blorp\n      labels:\n        app: blorp\n    spec:\n      replicas: 1\n      selector:\n        matchLabels:\n          app: blorp\n      template:\n        metadata:\n          labels:\n            app: blorp\n        spec:\n          containers:\n            - name: blorp\n              image: christianjuth/blorp:latest\n              ports:\n                - containerPort: 80\n              env:\n                - name: REACT_APP_NAME\n                  value: \"" : String)
      ++ jsTrimStr s.name
      ++ ("\"\n                - name: REACT_APP_DEFAULT_INSTANCE\n                  value: \"" : String)
      ++ instancesJoined s.defaultInstance
      ++ ("\"\n                - name: REACT_APP_LOCK_TO_DEFAULT_INSTANCE\n                  value: \"" : String)
      ++ lockBit s.lockToDefaultInstance
      ++ ("\"\n                " : String)
      ++ ((if hasMultipleInstances s.defaultInstance then dedent ("\n        - name: REACT_APP_INSTANCE_SELECTION_MODE\n          value: \"" ++ s.instanceSelectionMode.toStr ++ "\"") else "") : String)
      ++ ("\n    ---\n    apiVersion: v1\n    kind: Service\n    metadata:\n      name: blorp\n      labels:\n        app: blorp\n    spec:\n      selector:\n        app: blorp\n      type: NodePort\n      ports:\n        - name: http\n          port: 80\n          targetPort: 80\n          nodePort: 30080\n  " : String)).data =
      ("\n    apiVersion: apps/v1\n    kind: Deployment\n    metadata:\n      name: blorp\n      labels:\n        app: blorp\n    spec:\n      replicas: 1\n      selector:\n        matchLabels:\n          app: blorp\n      template:\n        metadata:\n          labels:\n            app: blorp\n        spec:\n          containers:\n            - name: blorp\n              image: christianjuth/blorp:latest\n              ports:\n                - containerPort: 80\n              env:\n                - name: REACT_APP_NAME\n                  value: \"" : String).data
      ++ ((jsTrimStr s.name).data
      ++ (("\"\n                - name: REACT_APP_DEFAULT_INSTANCE\n                  value: \"" : String).data
      ++ ((instancesJoined s.defaultInstance).data
      ++ (("\"\n                - name: REACT_APP_LOCK_TO_DEFAULT_INSTANCE\n                  value: \"" : String).data
      ++ ((lockBit s.lockToDefaultInstance).data
      ++ (("\"\n                " : String).data
      ++ (((if hasMultipleInstances s.defaultInstance then dedent ("\n        - name: REACT_APP_INSTANCE_SELECTION_MODE\n          value: \"" ++ s.instanceSelectionMode.toStr ++ "\"") else "") : String).data
      ++ ("\n    ---\n    apiVersion: v1\n    kind: Service\n    metadata:\n      name: blorp\n      labels:\n        app: blorp\n    spec:\n      selector:\n        app: blorp\n      type: NodePort\n      ports:\n        - name: http\n          port: 80\n          targetPort: 80\n          nodePort: 30080\n  " : String).data))))))) := by
    simp [String.data_append, List.append_assoc]
  have hstart : (kubeOf s).data = jsTrim (dedentChars
      (("\n    apiVersion: apps/v1\n    kind: Deployment\n    metadata:\n      name: blorp\n      labels:\n        app: blorp\n    spec:\n      replicas: 1\n      selector:\n        matchLabels:\n          app: blorp\n      template:\n        metadata:\n          labels:\n            app: blorp\n        spec:\n          containers:\n            - name: blorp\n              image: christianjuth/blorp:latest\n              ports:\n                - containerPort: 80\n              env:\n                - name: REACT_APP_NAME\n                  value: \"" : String).data
      ++ ((jsTrimStr s.name).data
      ++ (("\"\n                - name: REACT_APP_DEFAULT_INSTANCE\n                  value: \"" : String).data
      ++ ((instancesJoined s.defaultInstance).data
      ++ (("\"\n                - name: REACT_APP_LOCK_TO_DEFAULT_INSTANCE\n                  value: \"" : String).data
      ++ ((lockBit s.lockToDefaultInstance).data
      ++ (("\"\n                " : String).data
      ++ (((if hasMultipleInstances s.defaultInstance then dedent ("\n        - name: REACT_APP_INSTANCE_SELECTION_MODE\n          value: \"" ++ s.instanceSelectionMode.toStr ++ "\"") else "") : String).data
      ++ ("\n    ---\n    apiVersion: v1\n    kind: Service\n    metadata:\n      name: blorp\n      labels:\n        app: blorp\n    spec:\n      selector:\n        app: blorp\n      type: NodePort\n      ports:\n        - name: http\n          port: 80\n          targetPort: 80\n          nodePort: 30080\n  " : String).data))))))))) := by
    show (jsTrimStr (dedent _)).data = _
    rw [show ∀ y : String, (jsTrimStr y).data = jsTrim y.data from fun y => rfl,
        show ∀ y : String, (dedent y).data = dedentChars y.data from fun y => rfl,
        ← hdata]
    rfl
  rw [hstart, countOcc_jsTrim ht hws, countOcc_dedentChars ht hws hb hn,
      countOcc_chain9 ht _ _ _ _ _ _ _ _ _
        (by decide) hq (by decide) hq (by decide) hq (by decide) hq
        (by decide) hq (by decide) hq (by decide) hsp (by decide) hnl]
  rfl




set_option maxRecDepth 40000 in
theorem strCountT_dockerCommandOf (s : Store) :
    strCount "REACT_APP_INSTANCE_SELECTION_MODE" (dockerCommandOf s) =
      countOcc ("REACT_APP_INSTANCE_SELECTION_MODE" : String).data (jsTrim s.name.data)
      + countOcc ("REACT_APP_INSTANCE_SELECTION_MODE" : String).data (instancesJoined s.defaultInstance).data
      + (if hasMultipleInstances s.defaultInstance then 1 else 0) := by
  simp only [strCount]
  rw [countOcc_dockerCommandOf (by decide) (by decide) (by decide) (by decide) (by decide) (by decide) s]
  have hbit : countOcc ("REACT_APP_INSTANCE_SELECTION_MODE" : String).data (lockBit s.lockToDefaultInstance).data = 0 := by
    cases s.lockToDefaultInstance <;> decide
  have hcond : countOcc ("REACT_APP_INSTANCE_SELECTION_MODE" : String).data (((if hasMultipleInstances s.defaultInstance then ("-e REACT_APP_INSTANCE_SELECTION_MODE=\"" ++ s.instanceSelectionMode.toStr ++ "\"  \n      " : String) else "") : String).data)
      = (if hasMultipleInstances s.defaultInstance then 1 else 0) := by
    cases hf : hasMultipleInstances s.defaultInstance
    · rw [if_neg (show ¬ ((false : Bool) = true) by decide),
          if_neg (show ¬ ((false : Bool) = true) by decide)]
      decide
    · rw [if_pos (show (true : Bool) = true from rfl),
          if_pos (show (true : Bool) = true from rfl)]
      cases s.instanceSelectionMode <;> decide
  have hfx0 : countOcc ("REACT_APP_INSTANCE_SELECTION_MODE" : String).data ("\n    # pull the latest Blorp image\n    docker pull christianjuth/blorp:latest\n\n    # run it on port 8080 (host → container), passing any runtime env‑vars you need\n    docker run -d \\ \n      --name blorp \\ \n      -p 8080:80 \\ \n      -e REACT_APP_NAME=\"" : String).data = 0 := by decide
  have hfx1 : countOcc ("REACT_APP_INSTANCE_SELECTION_MODE" : String).data ("\" \\ \n      -e REACT_APP_DEFAULT_INSTANCE=\"" : String).data = 0 := by decide
  have hfx2 : countOcc ("REACT_APP_INSTANCE_SELECTION_MODE" : String).data ("\" \\ \n      -e REACT_APP_LOCK_TO_DEFAULT_INSTANCE=\"" : String).data = 0 := by decide
  have hfx3 : countOcc ("REACT_APP_INSTANCE_SELECTION_MODE" : String).data ("\" \\ \n      " : String).data = 0 := by decide
  have hfx4 : countOcc ("REACT_APP_INSTANCE_SELECTION_MODE" : String).data ("christianjuth/blorp:latest\n  " : String).data = 0 := by decide
  rw [hbit, hcond, hfx0, hfx1, hfx2, hfx3, hfx4]
  omega

set_option maxRecDepth 40000 in
theorem strCountT_dockerfileOf (s : Store) :
    strCount "REACT_APP_INSTANCE_SELECTION_MODE" (dockerfileOf s) =
      countOcc ("REACT_APP_INSTANCE_SELECTION_MODE" : String).data (jsTrim s.name.data)
      + countOcc ("REACT_APP_INSTANCE_SELECTION_MODE" : String).data (instancesJoined s.defaultInstance).data
      + (if hasMultipleInstances s.defaultInstance then 1 else 0) := by
  simp only [strCount]
  rw [countOcc_dockerfileOf (by decide) (by decide) (by decide) (by decide) (by decide) s]
  have hbit : countOcc ("REACT_APP_INSTANCE_SELECTION_MODE" : String).data (lockBit s.lockToDefaultInstance).data = 0 := by
    cases s.lockToDefaultInstance <;> decide
  have hcond : countOcc ("REACT_APP_INSTANCE_SELECTION_MODE" : String).data (((if hasMultipleInstances s.defaultInstance then ("ENV REACT_APP_INSTANCE_SELECTION_MODE=\"" ++ s.instanceSelectionMode.toStr ++ "\"" : String) else "") : String).data)
      = (if hasMultipleInstances s.defaultInstance then 1 else 0) := by
    cases hf : hasMultipleInstances s.defaultInstance
    · rw [if_neg (show ¬ ((false : Bool) = true) by decide),
          if_neg (show ¬ ((false : Bool) = true) by decide)]
      decide
    · rw [if_pos (show (true : Bool) = true from rfl),
          if_pos (show (true : Bool) = true from rfl)]
      cases s.instanceSelectionMode <;> decide
  have hfx0 : countOcc ("REACT_APP_INSTANCE_SELECTION_MODE" : String).data ("\n    FROM christianjuth/blorp:latest\n\n    ENV REACT_APP_NAME=\"" : String).data = 0 := by decide
  have hfx1 : countOcc ("REACT_APP_INSTANCE_SELECTION_MODE" : String).data ("\"\n    ENV REACT_APP_DEFAULT_INSTANCE=\"" : String).data = 0 := by decide
  have hfx2 : countOcc ("REACT_APP_INSTANCE_SELECTION_MODE" : String).data ("\"\n    ENV REACT_APP_LOCK_TO_DEFAULT_INSTANCE=\"" : String).data = 0 := by decide
  have hfx3 : countOcc ("REACT_APP_INSTANCE_SELECTION_MODE" : String).data ("\"\n    " : String).data = 0 := by decide
  have hfx4 : countOcc ("REACT_APP_INSTANCE_SELECTION_MODE" : String).data ("\n\n    EXPOSE 80\n    # Build:  docker build -t blorp-custom .\n    # Run:    docker run -d --name blorp -p 8080:80 blorp-custom\n  " : String).data = 0 := by decide
  rw [hbit, hcond, hfx0, hfx1, hfx2, hfx3, hfx4]
  omega

set_option maxRecDepth 40000 in
theorem strCountT_composeOf (s : Store) :
    strCount "REACT_APP_INSTANCE_SELECTION_MODE" (composeOf s) =
      countOcc ("REACT_APP_INSTANCE_SELECTION_MODE" : String).data (jsTrim s.name.data)
      + countOcc ("REACT_APP_INSTANCE_SELECTION_MODE" : String).data (instancesJoined s.defaultInstance).data
      + (if hasMultipleInstances s.defaultInstance then 1 else 0) := by
  simp only [strCount]
  rw [countOcc_composeOf (by decide) (by decide) (by decide) (by decide) (by decide) s]
  have hbit : countOcc ("REACT_APP_INSTANCE_SELECTION_MODE" : String).data (lockBit s.lockToDefaultInstance).data = 0 := by
    cases s.lockToDefaultInstance <;> decide
  have hcond : countOcc ("REACT_APP_INSTANCE_SELECTION_MODE" : String).data (((if hasMultipleInstances s.defaultInstance then ("\n      REACT_APP_INSTANCE_SELECTION_MODE: \"" ++ s.instanceSelectionMode.toStr ++ "\"" : String) else "") : String).data)
      = (if hasMultipleInstances s.defaultInstance then 1 else 0) := by
    cases hf : hasMultipleInstances s.defaultInstance
    · rw [if_neg (show ¬ ((false : Bool) = true) by decide),
          if_neg (show ¬ ((false : Bool) = true) by decide)]
      decide
    · rw [if_pos (show (true : Bool) = true from rfl),
          if_pos (show (true : Bool) = true from rfl)]
      cases s.instanceSelectionMode <;> decide
  have hfx0 : countOcc ("REACT_APP_INSTANCE_SELECTION_MODE" : String).data ("\n    version: \"3.8\"\n\n    services:\n      blorp:\n        image: christianjuth/blorp:latest\n        container_name: blorp\n        ports:\n          - \"8080:80\"\n        environment:\n          REACT_APP_NAME: \"" : String).data = 0 := by decide
  have hfx1 : countOcc ("REACT_APP_INSTANCE_SELECTION_MODE" : String).data ("\"\n          REACT_APP_DEFAULT_INSTANCE: \"" : String).data = 0 := by decide
  have hfx2 : countOcc ("REACT_APP_INSTANCE_SELECTION_MODE" : String).data ("\"\n          REACT_APP_LOCK_TO_DEFAULT_INSTANCE: \"" : String).data = 0 := by decide
  have hfx3 : countOcc ("REACT_APP_INSTANCE_SELECTION_MODE" : String).data ("\"" : String).data = 0 := by decide
  have hfx4 : countOcc ("REACT_APP_INSTANCE_SELECTION_MODE" : String).data ("\n  " : String).data = 0 := by decide
  rw [hbit, hcond, hfx0, hfx1, hfx2, hfx3, hfx4]
  omega

set_option maxRecDepth 40000 in
theorem strCountT_kubeOf (s : Store) :
    strCount "REACT_APP_INSTANCE_SELECTION_MODE" (kubeOf s) =
      countOcc ("REACT_APP_INSTANCE_SELECTION_MODE" : String).data (jsTrim s.name.data)
      + countOcc ("REACT_APP_INSTANCE_SELECTION_MODE" : String).data (instancesJoined s.defaultInstance).data
      + (if hasMultipleInstances s.defaultInstance then 1 else 0) := by
  simp only [strCount]
  rw [countOcc_kubeOf (by decide) (by decide) (by decide) (by decide) (by decide) s]
  have hbit : countOcc ("REACT_APP_INSTANCE_SELECTION_MODE" : String).data (lockBit s.lockToDefaultInstance).data = 0 := by
    cases s.lockToDefaultInstance <;> decide
  have hcond : countOcc ("REACT_APP_INSTANCE_SELECTION_MODE" : String).data (((if hasMultipleInstances s.defaultInstance then dedent ("\n        - name: REACT_APP_INSTANCE_SELECTION_MODE\n          value: \"" ++ s.instanceSelectionMode.toStr ++ "\"") else "") : String).data)
      = (if hasMultipleInstances s.defaultInstance then 1 else 0) := by
    cases hf : hasMultipleInstances s.defaultInstance
    · rw [if_neg (show ¬ ((false : Bool) = true) by decide),
          if_neg (show ¬ ((false : Bool) = true) by decide)]
      decide
    · rw [if_pos (show (true : Bool) = true from rfl),
          if_pos (show (true : Bool) = true from rfl)]
      cases s.instanceSelectionMode <;> decide
  have hfx0 : countOcc ("REACT_APP_INSTANCE_SELECTION_MODE" : String).data ("\n    apiVersion: apps/v1\n    kind: Deployment\n    metadata:\n      name: blorp\n      labels:\n        app: blorp\n    spec:\n      replicas: 1\n      selector:\n        matchLabels:\n          app: blorp\n      template:\n        metadata:\n          labels:\n            app: blorp\n        spec:\n          containers:\n            - name: blorp\n              image: christianjuth/blorp:latest\n              ports:\n                - containerPort: 80\n              env:\n                - name: REACT_APP_NAME\n                  value: \"" : String).data = 0 := by decide
  have hfx1 : countOcc ("REACT_APP_INSTANCE_SELECTION_MODE" : String).data ("\"\n                - name: REACT_APP_DEFAULT_INSTANCE\n                  value: \"" : String).data = 0 := by decide
  have hfx2 : countOcc ("REACT_APP_INSTANCE_SELECTION_MODE" : String).data ("\"\n                - name: REACT_APP_LOCK_TO_DEFAULT_INSTANCE\n                  value: \"" : String).data = 0 := by decide
  have hfx3 : countOcc ("REACT_APP_INSTANCE_SELECTION_MODE" : String).data ("\"\n                " : String).data = 0 := by decide
  have hfx4 : countOcc ("REACT_APP_INSTANCE_SELECTION_MODE" : String).data ("\n    ---\n    apiVersion: v1\n    kind: Service\n    metadata:\n      name: blorp\n      labels:\n        app: blorp\n    spec:\n      selector:\n        app: blorp\n      type: NodePort\n      ports:\n        - name: http\n          port: 80\n          targetPort: 80\n          nodePort: 30080\n  " : String).data = 0 := by decide
  rw [hbit, hcond, hfx0, hfx1, hfx2, hfx3, hfx4]
  omega


/-! ### Claims C2 and C9: conditional emission of the selection mode -/

theorem countOcc_instancesJoined_zero {t : List Char} (ht : t ≠ [])
    (hws : ∀ x ∈ t, jsWs x = false) (hcomma : ',' ∉ t) (inst : String)
    (h : countOcc t inst.data = 0) : countOcc t (instancesJoined inst).data = 0 := by
  show countOcc t (joinCh ',' ((splitCh ',' inst.data).map jsTrim)) = 0
  rw [countOcc_joinCh ht hcomma, List.map_map]
  have hcong : (splitCh ',' inst.data).map (countOcc t ∘ jsTrim)
      = (splitCh ',' inst.data).map (countOcc t) := by
    apply List.map_congr_left
    intro l _
    exact countOcc_jsTrim ht hws l
  rw [hcong, ← countOcc_splitCh ht hcomma, h]

theorem splitCh_length_of_mem {sep : Char} : ∀ {l : List Char}, sep ∈ l →
    1 < (splitCh sep l).length := by
  intro l
  induction l with
  | nil => intro h; simp at h
  | cons c rest ih =>
    intro h
    by_cases hc : c = sep
    · subst hc
      rw [show splitCh c (c :: rest) = [] :: splitCh c rest from by simp [splitCh]]
      have h1 : 0 < (splitCh c rest).length :=
        List.length_pos.2 (splitCh_ne_nil c rest)
      simp only [List.length_cons]
      omega
    · have hmem : sep ∈ rest := by
        rcases List.mem_cons.1 h with rfl | hm
        · exact absurd rfl hc
        · exact hm
      rcases hs : splitCh sep rest with _ | ⟨l0, ls⟩
      · exact absurd hs (splitCh_ne_nil _ _)
      · rw [show splitCh sep (c :: rest) = (c :: l0) :: ls from by simp [splitCh, hc, hs]]
        have h2 := ih hmem
        rw [hs] at h2
        simpa using h2

set_option maxRecDepth 40000 in
/-- C2 (counterexample): the claim quantifies over every `Settings`, but
a display name that itself contains the selection-mode token is copied
into every artifact, so a single-endpoint configuration can still produce
output containing the token. -/
theorem c2_counterexample :
    (splitCh ',' ("https://a.com" : String).data).length = 1 ∧
    strCount "REACT_APP_INSTANCE_SELECTION_MODE"
      (dockerCommandOf ⟨"REACT_APP_INSTANCE_SELECTION_MODE", "https://a.com",
        false, .DEFAULT_FIRST⟩) ≠ 0 := ⟨by decide, by decide⟩

/-- C2 (amended): provided neither the display name nor the raw endpoints
string contains the selection-mode token (interpolated field values are
the only other way the token can reach an artifact), a Settings with
exactly one endpoint yields no occurrence of the token in any of the four
renderers' outputs, and a Settings with two or more endpoints yields
exactly one occurrence in each. -/
theorem c2_conditional_emission (s : Store)
    (hname : strCount "REACT_APP_INSTANCE_SELECTION_MODE" s.name = 0)
    (hinst : strCount "REACT_APP_INSTANCE_SELECTION_MODE" s.defaultInstance = 0) :
    ((splitCh ',' s.defaultInstance.data).length = 1 →
      strCount "REACT_APP_INSTANCE_SELECTION_MODE" (dockerCommandOf s) = 0 ∧
      strCount "REACT_APP_INSTANCE_SELECTION_MODE" (dockerfileOf s) = 0 ∧
      strCount "REACT_APP_INSTANCE_SELECTION_MODE" (composeOf s) = 0 ∧
      strCount "REACT_APP_INSTANCE_SELECTION_MODE" (kubeOf s) = 0) ∧
    (1 < (splitCh ',' s.defaultInstance.data).length →
      strCount "REACT_APP_INSTANCE_SELECTION_MODE" (dockerCommandOf s) = 1 ∧
      strCount "REACT_APP_INSTANCE_SELECTION_MODE" (dockerfileOf s) = 1 ∧
      strCount "REACT_APP_INSTANCE_SELECTION_MODE" (composeOf s) = 1 ∧
      strCount "REACT_APP_INSTANCE_SELECTION_MODE" (kubeOf s) = 1) := by
  simp only [strCount] at hname hinst
  have hvn : countOcc ("REACT_APP_INSTANCE_SELECTION_MODE" : String).data
      (jsTrim s.name.data) = 0 := by
    rw [countOcc_jsTrim (by decide) (by decide)]
    exact hname
  have hvi : countOcc ("REACT_APP_INSTANCE_SELECTION_MODE" : String).data
      (instancesJoined s.defaultInstance).data = 0 :=
    countOcc_instancesJoined_zero (by decide) (by decide) (by decide) _ hinst
  constructor
  · intro hlen
    have hflag : hasMultipleInstances s.defaultInstance = false := by
      simp [hasMultipleInstances, hlen]
    refine ⟨?_, ?_, ?_, ?_⟩
    · rw [strCountT_dockerCommandOf, hvn, hvi, hflag]
      simp
    · rw [strCountT_dockerfileOf, hvn, hvi, hflag]
      simp
    · rw [strCountT_composeOf, hvn, hvi, hflag]
      simp
    · rw [strCountT_kubeOf, hvn, hvi, hflag]
      simp
  · intro hlen
    have hflag : hasMultipleInstances s.defaultInstance = true := by
      simp [hasMultipleInstances, hlen]
    refine ⟨?_, ?_, ?_, ?_⟩
    · rw [strCountT_dockerCommandOf, hvn, hvi, hflag]
      simp
    · rw [strCountT_dockerfileOf, hvn, hvi, hflag]
      simp
    · rw [strCountT_composeOf, hvn, hvi, hflag]
      simp
    · rw [strCountT_kubeOf, hvn, hvi, hflag]
      simp

/-- C2 witness: a clean two-endpoint configuration has the token exactly
once in each artifact. -/
theorem c2_witness :
    strCount "REACT_APP_INSTANCE_SELECTION_MODE" ("Blorp" : String) = 0 ∧
    strCount "REACT_APP_INSTANCE_SELECTION_MODE" ("https://a.com,https://b.com" : String) = 0 ∧
    1 < (splitCh ',' ("https://a.com,https://b.com" : String).data).length ∧
    (strCount "REACT_APP_INSTANCE_SELECTION_MODE"
        (dockerCommandOf ⟨"Blorp", "https://a.com,https://b.com", false, .DEFAULT_FIRST⟩) = 1 ∧
      strCount "REACT_APP_INSTANCE_SELECTION_MODE"
        (dockerfileOf ⟨"Blorp", "https://a.com,https://b.com", false, .DEFAULT_FIRST⟩) = 1 ∧
      strCount "REACT_APP_INSTANCE_SELECTION_MODE"
        (composeOf ⟨"Blorp", "https://a.com,https://b.com", false, .DEFAULT_FIRST⟩) = 1 ∧
      strCount "REACT_APP_INSTANCE_SELECTION_MODE"
        (kubeOf ⟨"Blorp", "https://a.com,https://b.com", false, .DEFAULT_FIRST⟩) = 1) :=
  ⟨by decide, by decide, by decide,
   (c2_conditional_emission ⟨"Blorp", "https://a.com,https://b.com", false, .DEFAULT_FIRST⟩
     (by decide) (by decide)).2 (by decide)⟩

/-- C9: the multiple-endpoints flag counts raw comma-separated segments
without discarding empty ones, so any raw endpoints string containing a
comma — even with only one non-empty segment, such as `"https://a.com,"`
— makes every renderer emit the selection-mode entry. -/
theorem c9_empty_segment_still_emits (s : Store)
    (hcomma : ',' ∈ s.defaultInstance.data)
    (_hone : (((splitCh ',' s.defaultInstance.data).map jsTrim).filter
      (fun seg => !seg.isEmpty)).length = 1) :
    hasMultipleInstances s.defaultInstance = true ∧
    StrOccurs "REACT_APP_INSTANCE_SELECTION_MODE" (dockerCommandOf s) ∧
    StrOccurs "REACT_APP_INSTANCE_SELECTION_MODE" (dockerfileOf s) ∧
    StrOccurs "REACT_APP_INSTANCE_SELECTION_MODE" (composeOf s) ∧
    StrOccurs "REACT_APP_INSTANCE_SELECTION_MODE" (kubeOf s) := by
  have hflag : hasMultipleInstances s.defaultInstance = true := by
    simp only [hasMultipleInstances, decide_eq_true_eq]
    exact splitCh_length_of_mem hcomma
  refine ⟨hflag, ?_, ?_, ?_, ?_⟩
  · refine (occursIn_iff_countOcc _ (by decide) _).2 ?_
    show strCount "REACT_APP_INSTANCE_SELECTION_MODE" (dockerCommandOf s) ≠ 0
    rw [strCountT_dockerCommandOf, hflag]
    simp
  · refine (occursIn_iff_countOcc _ (by decide) _).2 ?_
    show strCount "REACT_APP_INSTANCE_SELECTION_MODE" (dockerfileOf s) ≠ 0
    rw [strCountT_dockerfileOf, hflag]
    simp
  · refine (occursIn_iff_countOcc _ (by decide) _).2 ?_
    show strCount "REACT_APP_INSTANCE_SELECTION_MODE" (composeOf s) ≠ 0
    rw [strCountT_composeOf, hflag]
    simp
  · refine (occursIn_iff_countOcc _ (by decide) _).2 ?_
    show strCount "REACT_APP_INSTANCE_SELECTION_MODE" (kubeOf s) ≠ 0
    rw [strCountT_kubeOf, hflag]
    simp

/-- C9 witness: the raw endpoints string `"https://a.com,"`. -/
theorem c9_witness :
    ',' ∈ ("https://a.com," : String).data ∧
    (((splitCh ',' ("https://a.com," : String).data).map jsTrim).filter
      (fun seg => !seg.isEmpty)).length = 1 ∧
    (hasMultipleInstances "https://a.com," = true ∧
      StrOccurs "REACT_APP_INSTANCE_SELECTION_MODE"
        (dockerCommandOf ⟨"Blorp", "https://a.com,", false, .DEFAULT_FIRST⟩) ∧
      StrOccurs "REACT_APP_INSTANCE_SELECTION_MODE"
        (dockerfileOf ⟨"Blorp", "https://a.com,", false, .DEFAULT_FIRST⟩) ∧
      StrOccurs "REACT_APP_INSTANCE_SELECTION_MODE"
        (composeOf ⟨"Blorp", "https://a.com,", false, .DEFAULT_FIRST⟩) ∧
      StrOccurs "REACT_APP_INSTANCE_SELECTION_MODE"
        (kubeOf ⟨"Blorp", "https://a.com,", false, .DEFAULT_FIRST⟩)) :=
  ⟨by decide, by decide,
   c9_empty_segment_still_emits ⟨"Blorp", "https://a.com,", false, .DEFAULT_FIRST⟩
     (by decide) (by decide)⟩



/-! ### Claim C7: the lock flag is embedded as the strings `"1"` / `"0"` -/

/-- A token occurring in a middle window also occurs in any surrounding
concatenation. -/
theorem occursIn_sandwich {t m : List Char} (a b : List Char)
    (h : OccursIn t m) : OccursIn t (a ++ (m ++ b)) := by
  obtain ⟨x, y, hm⟩ := h
  exact ⟨a ++ x, y ++ b, by rw [hm]; simp [List.append_assoc]⟩

set_option maxRecDepth 40000 in
set_option maxHeartbeats 2000000 in
/-- C7: in every output of all four renderers the lock flag appears as
the quoted literal string `"1"` (lock on) or `"0"` (lock off) attached
to its key — the flag reaches the artifacts only through `lockBit`,
which maps `true` to `"1"` and `false` to `"0"`, never to a native
boolean token. -/
theorem c7_lock_rendered_as_bit (s : Store) :
    (s.lockToDefaultInstance = true → lockBit s.lockToDefaultInstance = "1") ∧
    (s.lockToDefaultInstance = false → lockBit s.lockToDefaultInstance = "0") ∧
    StrOccurs ("REACT_APP_LOCK_TO_DEFAULT_INSTANCE=\""
      ++ lockBit s.lockToDefaultInstance ++ "\"") (dockerCommandOf s) ∧
    StrOccurs ("REACT_APP_LOCK_TO_DEFAULT_INSTANCE=\""
      ++ lockBit s.lockToDefaultInstance ++ "\"") (dockerfileOf s) ∧
    StrOccurs ("REACT_APP_LOCK_TO_DEFAULT_INSTANCE: \""
      ++ lockBit s.lockToDefaultInstance ++ "\"") (composeOf s) ∧
    StrOccurs "- name: REACT_APP_LOCK_TO_DEFAULT_INSTANCE" (kubeOf s) ∧
    StrOccurs ("value: \"" ++ lockBit s.lockToDefaultInstance ++ "\"") (kubeOf s) := by
  have houtdc : (dockerCommandOf s).data = dedentChars (("\n    # pull the latest Blorp image\n    docker pull christianjuth/blorp:latest\n\n    # run it on port 8080 (host → container), passing any runtime env‑vars you need\n    docker run -d \\ \n      --name blorp \\ \n      -p 8080:80 \\ \n      -e REACT_APP_NAME=\"" : String).data
      ++ ((jsTrimStr s.name).data
      ++ (("\" \\ \n      -e REACT_APP_DEFAULT_INSTANCE=\"" : String).data
      ++ ((instancesJoined s.defaultInstance).data
      ++ (("\" \\ \n      -e REACT_APP_LOCK_TO_DEFAULT_INSTANCE=\"" : String).data
      ++ ((lockBit s.lockToDefaultInstance).data
      ++ (("\" \\ \n      " : String).data
      ++ (((if hasMultipleInstances s.defaultInstance then ("-e REACT_APP_INSTANCE_SELECTION_MODE=\"" ++ s.instanceSelectionMode.toStr ++ "\"  \n      " : String) else "") : String).data
      ++ ("christianjuth/blorp:latest\n  " : String).data)))))))) := by
    show (dedent _).data = _
    rw [show ∀ y : String, (dedent y).data = dedentChars y.data from fun y => rfl]
    congr 1
    simp [appConfig, String.data_append, List.append_assoc]
  have hdatadf : (("\n    FROM christianjuth/blorp:latest\n\n    ENV REACT_APP_NAME=\"" : String)
      ++ jsTrimStr s.name
      ++ ("\"\n    ENV REACT_APP_DEFAULT_INSTANCE=\"" : String)
      ++ instancesJoined s.defaultInstance
      ++ ("\"\n    ENV REACT_APP_LOCK_TO_DEFAULT_INSTANCE=\"" : String)
      ++ lockBit s.lockToDefaultInstance
      ++ ("\"\n    " : String)
      ++ ((if hasMultipleInstances s.defaultInstance then ("ENV REACT_APP_INSTANCE_SELECTION_MODE=\"" ++ s.instanceSelectionMode.toStr ++ "\"" : String) else "") : String)
      ++ ("\n\n    EXPOSE 80\n    # Build:  docker build -t blorp-custom .\n    # Run:    docker run -d --name blorp -p 8080:80 blorp-custom\n  " : String)).data = (("\n    FROM christianjuth/blorp:latest\n\n    ENV REACT_APP_NAME=\"" : String).data
      ++ ((jsTrimStr s.name).data
      ++ (("\"\n    ENV REACT_APP_DEFAULT_INSTANCE=\"" : String).data
      ++ ((instancesJoined s.defaultInstance).data
      ++ (("\"\n    ENV REACT_APP_LOCK_TO_DEFAULT_INSTANCE=\"" : String).data
      ++ ((lockBit s.lockToDefaultInstance).data
      ++ (("\"\n    " : String).data
      ++ (((if hasMultipleInstances s.defaultInstance then ("ENV REACT_APP_INSTANCE_SELECTION_MODE=\"" ++ s.instanceSelectionMode.toStr ++ "\"" : String) else "") : String).data
      ++ ("\n\n    EXPOSE 80\n    # Build:  docker build -t blorp-custom .\n    # Run:    docker run -d --name blorp -p 8080:80 blorp-custom\n  " : String).data)))))))) := by
    simp [appConfig, String.data_append, List.append_assoc]
  have houtdf : (dockerfileOf s).data = jsTrim (dedentChars (("\n    FROM christianjuth/blorp:latest\n\n    ENV REACT_APP_NAME=\"" : String).data
      ++ ((jsTrimStr s.name).data
      ++ (("\"\n    ENV REACT_APP_DEFAULT_INSTANCE=\"" : String).data
      ++ ((instancesJoined s.defaultInstance).data
      ++ (("\"\n    ENV REACT_APP_LOCK_TO_DEFAULT_INSTANCE=\"" : String).data
      ++ ((lockBit s.lockToDefaultInstance).data
      ++ (("\"\n    " : String).data
      ++ (((if hasMultipleInstances s.defaultInstance then ("ENV REACT_APP_INSTANCE_SELECTION_MODE=\"" ++ s.instanceSelectionMode.toStr ++ "\"" : String) else "") : String).data
      ++ ("\n\n    EXPOSE 80\n    # Build:  docker build -t blorp-custom .\n    # Run:    docker run -d --name blorp -p 8080:80 blorp-custom\n  " : String).data))))))))) := by
    show (jsTrimStr (dedent _)).data = _
    rw [show ∀ y : String, (jsTrimStr y).data = jsTrim y.data from fun y => rfl,
        show ∀ y : String, (dedent y).data = dedentChars y.data from fun y => rfl,
        ← hdatadf]
    rfl
  have hdataco : (("\n    version: \"3.8\"\n\n    services:\n      blorp:\n        image: christianjuth/blorp:latest\n        container_name: blorp\n        ports:\n          - \"8080:80\"\n        environment:\n          REACT_APP_NAME: \"" : String)
      ++ jsTrimStr s.name
      ++ ("\"\n          REACT_APP_DEFAULT_INSTANCE: \"" : String)
      ++ instancesJoined s.defaultInstance
      ++ ("\"\n          REACT_APP_LOCK_TO_DEFAULT_INSTANCE: \"" : String)
      ++ lockBit s.lockToDefaultInstance
      ++ ("\"" : String)
      ++ ((if hasMultipleInstances s.defaultInstance then ("\n      REACT_APP_INSTANCE_SELECTION_MODE: \"" ++ s.instanceSelectionMode.toStr ++ "\"" : String) else "") : String)
      ++ ("\n  " : String)).data = (("\n    version: \"3.8\"\n\n    services:\n      blorp:\n        image: christianjuth/blorp:latest\n        container_name: blorp\n        ports:\n          - \"8080:80\"\n        environment:\n          REACT_APP_NAME: \"" : String).data
      ++ ((jsTrimStr s.name).data
      ++ (("\"\n          REACT_APP_DEFAULT_INSTANCE: \"" : String).data
      ++ ((instancesJoined s.defaultInstance).data
      ++ (("\"\n          REACT_APP_LOCK_TO_DEFAULT_INSTANCE: \"" : String).data
      ++ ((lockBit s.lockToDefaultInstance).data
      ++ (("\"" : String).data
      ++ (((if hasMultipleInstances s.defaultInstance then ("\n      REACT_APP_INSTANCE_SELECTION_MODE: \"" ++ s.instanceSelectionMode.toStr ++ "\"" : String) else "") : String).data
      ++ ("\n  " : String).data)))))))) := by
    simp [appConfig, String.data_append, List.append_assoc]
  have houtco : (composeOf s).data = jsTrim (dedentChars (("\n    version: \"3.8\"\n\n    services:\n      blorp:\n        image: christianjuth/blorp:latest\n        container_name: blorp\n        ports:\n          - \"8080:80\"\n        environment:\n          REACT_APP_NAME: \"" : String).data
      ++ ((jsTrimStr s.name).data
      ++ (("\"\n          REACT_APP_DEFAULT_INSTANCE: \"" : String).data
      ++ ((instancesJoined s.defaultInstance).data
      ++ (("\"\n          REACT_APP_LOCK_TO_DEFAULT_INSTANCE: \"" : String).data
      ++ ((lockBit s.lockToDefaultInstance).data
      ++ (("\"" : String).data
      ++ (((if hasMultipleInstances s.defaultInstance then ("\n      REACT_APP_INSTANCE_SELECTION_MODE: \"" ++ s.instanceSelectionMode.toStr ++ "\"" : String) else "") : String).data
      ++ ("\n  " : String).data))))))))) := by
    show (jsTrimStr (dedent _)).data = _
    rw [show ∀ y : String, (jsTrimStr y).data = jsTrim y.data from fun y => rfl,
        show ∀ y : String, (dedent y).data = dedentChars y.data from fun y => rfl,
        ← hdataco]
    rfl
  have hdataku : (("\n    apiVersion: apps/v1\n    kind: Deployment\n    metadata:\n      name: blorp\n      labels:\n        app: blorp\n    spec:\n      replicas: 1\n      selector:\n        matchLabels:\n          app: blorp\n      template:\n        metadata:\n          labels:\n            app: blorp\n        spec:\n          containers:\n            - name: blorp\n              image: christianjuth/blorp:latest\n              ports:\n                - containerPort: 80\n              env:\n                - name: REACT_APP_NAME\n                  value: \"" : String)
      ++ jsTrimStr s.name
      ++ ("\"\n                - name: REACT_APP_DEFAULT_INSTANCE\n                  value: \"" : String)
      ++ instancesJoined s.defaultInstance
      ++ ("\"\n                - name: REACT_APP_LOCK_TO_DEFAULT_INSTANCE\n                  value: \"" : String)
      ++ lockBit s.lockToDefaultInstance
      ++ ("\"\n                " : String)
      ++ ((if hasMultipleInstances s.defaultInstance then dedent ("\n        - name: REACT_APP_INSTANCE_SELECTION_MODE\n          value: \"" ++ s.instanceSelectionMode.toStr ++ "\"") else "") : String)
      ++ ("\n    ---\n    apiVersion: v1\n    kind: Service\n    metadata:\n      name: blorp\n      labels:\n        app: blorp\n    spec:\n      selector:\n        app: blorp\n      type: NodePort\n      ports:\n        - name: http\n          port: 80\n          targetPort: 80\n          nodePort: 30080\n  " : String)).data = (("\n    apiVersion: apps/v1\n    kind: Deployment\n    metadata:\n      name: blorp\n      labels:\n        app: blorp\n    spec:\n      replicas: 1\n      selector:\n        matchLabels:\n          app: blorp\n      template:\n        metadata:\n          labels:\n            app: blorp\n        spec:\n          containers:\n            - name: blorp\n              image: christianjuth/blorp:latest\n              ports:\n                - containerPort: 80\n              env:\n                - name: REACT_APP_NAME\n                  value: \"" : String).data
      ++ ((jsTrimStr s.name).data
      ++ (("\"\n                - name: REACT_APP_DEFAULT_INSTANCE\n                  value: \"" : String).data
      ++ ((instancesJoined s.defaultInstance).data
      ++ (("\"\n                - name: REACT_APP_LOCK_TO_DEFAULT_INSTANCE\n                  value: \"" : String).data
      ++ ((lockBit s.lockToDefaultInstance).data
      ++ (("\"\n                " : String).data
      ++ (((if hasMultipleInstances s.defaultInstance then dedent ("\n        - name: REACT_APP_INSTANCE_SELECTION_MODE\n          value: \"" ++ s.instanceSelectionMode.toStr ++ "\"") else "") : String).data
      ++ ("\n    ---\n    apiVersion: v1\n    kind: Service\n    metadata:\n      name: blorp\n      labels:\n        app: blorp\n    spec:\n      selector:\n        app: blorp\n      type: NodePort\n      ports:\n        - name: http\n          port: 80\n          targetPort: 80\n          nodePort: 30080\n  " : String).data)))))))) := by
    simp [appConfig, String.data_append, List.append_assoc]
  have houtku : (kubeOf s).data = jsTrim (dedentChars (("\n    apiVersion: apps/v1\n    kind: Deployment\n    metadata:\n      name: blorp\n      labels:\n        app: blorp\n    spec:\n      replicas: 1\n      selector:\n        matchLabels:\n          app: blorp\n      template:\n        metadata:\n          labels:\n            app: blorp\n        spec:\n          containers:\n            - name: blorp\n              image: christianjuth/blorp:latest\n              ports:\n                - containerPort: 80\n              env:\n                - name: REACT_APP_NAME\n                  value: \"" : String).data
      ++ ((jsTrimStr s.name).data
      ++ (("\"\n                - name: REACT_APP_DEFAULT_INSTANCE\n                  value: \"" : String).data
      ++ ((instancesJoined s.defaultInstance).data
      ++ (("\"\n                - name: REACT_APP_LOCK_TO_DEFAULT_INSTANCE\n                  value: \"" : String).data
      ++ ((lockBit s.lockToDefaultInstance).data
      ++ (("\"\n                " : String).data
      ++ (((if hasMultipleInstances s.defaultInstance then dedent ("\n        - name: REACT_APP_INSTANCE_SELECTION_MODE\n          value: \"" ++ s.instanceSelectionMode.toStr ++ "\"") else "") : String).data
      ++ ("\n    ---\n    apiVersion: v1\n    kind: Service\n    metadata:\n      name: blorp\n      labels:\n        app: blorp\n    spec:\n      selector:\n        app: blorp\n      type: NodePort\n      ports:\n        - name: http\n          port: 80\n          targetPort: 80\n          nodePort: 30080\n  " : String).data))))))))) := by
    show (jsTrimStr (dedent _)).data = _
    rw [show ∀ y : String, (jsTrimStr y).data = jsTrim y.data from fun y => rfl,
        show ∀ y : String, (dedent y).data = dedentChars y.data from fun y => rfl,
        ← hdataku]
    rfl
  refine ⟨fun h => by rw [h]; rfl, fun h => by rw [h]; rfl, ?_, ?_, ?_, ?_, ?_⟩
  · show OccursIn (("REACT_APP_LOCK_TO_DEFAULT_INSTANCE=\"" ++ lockBit s.lockToDefaultInstance ++ "\"" : String)).data (dockerCommandOf s).data
    have hfragshape : ('R' :: ((("EACT_APP_LOCK_TO_DEFAULT_INSTANCE=\"" : String).data
        ++ (lockBit s.lockToDefaultInstance).data) ++ ['"']))
        = (("REACT_APP_LOCK_TO_DEFAULT_INSTANCE=\"" ++ lockBit s.lockToDefaultInstance ++ "\"" : String)).data := by
      cases s.lockToDefaultInstance <;> decide
    have hmid : OccursIn (("REACT_APP_LOCK_TO_DEFAULT_INSTANCE=\"" ++ lockBit s.lockToDefaultInstance ++ "\"" : String)).data
        (("\" \\ \n      -e REACT_APP_LOCK_TO_DEFAULT_INSTANCE=\"" : String).data
        ++ ((lockBit s.lockToDefaultInstance).data ++ ("\" \\ \n      " : String).data)) := by
      cases s.lockToDefaultInstance <;>
        exact ⟨("\" \\ \n      -e " : String).data, (" \\ \n      " : String).data, by decide⟩
    have hX : (("\n    # pull the latest Blorp image\n    docker pull christianjuth/blorp:latest\n\n    # run it on port 8080 (host → container), passing any runtime env‑vars you need\n    docker run -d \\ \n      --name blorp \\ \n      -p 8080:80 \\ \n      -e REACT_APP_NAME=\"" : String).data
      ++ ((jsTrimStr s.name).data
      ++ (("\" \\ \n      -e REACT_APP_DEFAULT_INSTANCE=\"" : String).data
      ++ ((instancesJoined s.defaultInstance).data
      ++ (("\" \\ \n      -e REACT_APP_LOCK_TO_DEFAULT_INSTANCE=\"" : String).data
      ++ ((lockBit s.lockToDefaultInstance).data
      ++ (("\" \\ \n      " : String).data
      ++ (((if hasMultipleInstances s.defaultInstance then ("-e REACT_APP_INSTANCE_SELECTION_MODE=\"" ++ s.instanceSelectionMode.toStr ++ "\"  \n      " : String) else "") : String).data
      ++ ("christianjuth/blorp:latest\n  " : String).data))))))))
        = (("\n    # pull the latest Blorp image\n    docker pull christianjuth/blorp:latest\n\n    # run it on port 8080 (host → container), passing any runtime env‑vars you need\n    docker run -d \\ \n      --name blorp \\ \n      -p 8080:80 \\ \n      -e REACT_APP_NAME=\"" : String).data
        ++ ((jsTrimStr s.name).data
        ++ (("\" \\ \n      -e REACT_APP_DEFAULT_INSTANCE=\"" : String).data
        ++ (instancesJoined s.defaultInstance).data)))
        ++ ((("\" \\ \n      -e REACT_APP_LOCK_TO_DEFAULT_INSTANCE=\"" : String).data
        ++ ((lockBit s.lockToDefaultInstance).data ++ ("\" \\ \n      " : String).data))
        ++ (((if hasMultipleInstances s.defaultInstance then ("-e REACT_APP_INSTANCE_SELECTION_MODE=\"" ++ s.instanceSelectionMode.toStr ++ "\"  \n      " : String) else "") : String).data ++ ("christianjuth/blorp:latest\n  " : String).data)) := by
      simp only [List.append_assoc]
    have hpre : OccursIn (("REACT_APP_LOCK_TO_DEFAULT_INSTANCE=\"" ++ lockBit s.lockToDefaultInstance ++ "\"" : String)).data
        (("\n    # pull the latest Blorp image\n    docker pull christianjuth/blorp:latest\n\n    # run it on port 8080 (host → container), passing any runtime env‑vars you need\n    docker run -d \\ \n      --name blorp \\ \n      -p 8080:80 \\ \n      -e REACT_APP_NAME=\"" : String).data
      ++ ((jsTrimStr s.name).data
      ++ (("\" \\ \n      -e REACT_APP_DEFAULT_INSTANCE=\"" : String).data
      ++ ((instancesJoined s.defaultInstance).data
      ++ (("\" \\ \n      -e REACT_APP_LOCK_TO_DEFAULT_INSTANCE=\"" : String).data
      ++ ((lockBit s.lockToDefaultInstance).data
      ++ (("\" \\ \n      " : String).data
      ++ (((if hasMultipleInstances s.defaultInstance then ("-e REACT_APP_INSTANCE_SELECTION_MODE=\"" ++ s.instanceSelectionMode.toStr ++ "\"  \n      " : String) else "") : String).data
      ++ ("christianjuth/blorp:latest\n  " : String).data)))))))) := by
      rw [hX]
      exact occursIn_sandwich _ _ hmid
    have hshaped : OccursIn ('R' :: ((("EACT_APP_LOCK_TO_DEFAULT_INSTANCE=\"" : String).data
        ++ (lockBit s.lockToDefaultInstance).data) ++ ['"'])) (("\n    # pull the latest Blorp image\n    docker pull christianjuth/blorp:latest\n\n    # run it on port 8080 (host → container), passing any runtime env‑vars you need\n    docker run -d \\ \n      --name blorp \\ \n      -p 8080:80 \\ \n      -e REACT_APP_NAME=\"" : String).data
      ++ ((jsTrimStr s.name).data
      ++ (("\" \\ \n      -e REACT_APP_DEFAULT_INSTANCE=\"" : String).data
      ++ ((instancesJoined s.defaultInstance).data
      ++ (("\" \\ \n      -e REACT_APP_LOCK_TO_DEFAULT_INSTANCE=\"" : String).data
      ++ ((lockBit s.lockToDefaultInstance).data
      ++ (("\" \\ \n      " : String).data
      ++ (((if hasMultipleInstances s.defaultInstance then ("-e REACT_APP_INSTANCE_SELECTION_MODE=\"" ++ s.instanceSelectionMode.toStr ++ "\"  \n      " : String) else "") : String).data
      ++ ("christianjuth/blorp:latest\n  " : String).data)))))))) := by
      rw [hfragshape]
      exact hpre
    have hb : '\\' ∉ 'R' :: ((("EACT_APP_LOCK_TO_DEFAULT_INSTANCE=\"" : String).data
        ++ (lockBit s.lockToDefaultInstance).data) ++ ['"']) := by
      cases s.lockToDefaultInstance <;> decide
    have hnl : '\n' ∉ 'R' :: ((("EACT_APP_LOCK_TO_DEFAULT_INSTANCE=\"" : String).data
        ++ (lockBit s.lockToDefaultInstance).data) ++ ['"']) := by
      cases s.lockToDefaultInstance <;> decide
    have htrans := occursIn_dedentChars (by decide) (by decide) hb (by decide) hnl hshaped
    rw [houtdc, ← hfragshape]
    exact htrans
  · show OccursIn (("REACT_APP_LOCK_TO_DEFAULT_INSTANCE=\"" ++ lockBit s.lockToDefaultInstance ++ "\"" : String)).data (dockerfileOf s).data
    have hfragshape : ('R' :: ((("EACT_APP_LOCK_TO_DEFAULT_INSTANCE=\"" : String).data
        ++ (lockBit s.lockToDefaultInstance).data) ++ ['"']))
        = (("REACT_APP_LOCK_TO_DEFAULT_INSTANCE=\"" ++ lockBit s.lockToDefaultInstance ++ "\"" : String)).data := by
      cases s.lockToDefaultInstance <;> decide
    have hmid : OccursIn (("REACT_APP_LOCK_TO_DEFAULT_INSTANCE=\"" ++ lockBit s.lockToDefaultInstance ++ "\"" : String)).data
        (("\"\n    ENV REACT_APP_LOCK_TO_DEFAULT_INSTANCE=\"" : String).data
        ++ ((lockBit s.lockToDefaultInstance).data ++ ("\"\n    " : String).data)) := by
      cases s.lockToDefaultInstance <;>
        exact ⟨("\"\n    ENV " : String).data, ("\n    " : String).data, by decide⟩
    have hX : (("\n    FROM christianjuth/blorp:latest\n\n    ENV REACT_APP_NAME=\"" : String).data
      ++ ((jsTrimStr s.name).data
      ++ (("\"\n    ENV REACT_APP_DEFAULT_INSTANCE=\"" : String).data
      ++ ((instancesJoined s.defaultInstance).data
      ++ (("\"\n    ENV REACT_APP_LOCK_TO_DEFAULT_INSTANCE=\"" : String).data
      ++ ((lockBit s.lockToDefaultInstance).data
      ++ (("\"\n    " : String).data
      ++ (((if hasMultipleInstances s.defaultInstance then ("ENV REACT_APP_INSTANCE_SELECTION_MODE=\"" ++ s.instanceSelectionMode.toStr ++ "\"" : String) else "") : String).data
      ++ ("\n\n    EXPOSE 80\n    # Build:  docker build -t blorp-custom .\n    # Run:    docker run -d --name blorp -p 8080:80 blorp-custom\n  " : String).data))))))))
        = (("\n    FROM christianjuth/blorp:latest\n\n    ENV REACT_APP_NAME=\"" : String).data
        ++ ((jsTrimStr s.name).data
        ++ (("\"\n    ENV REACT_APP_DEFAULT_INSTANCE=\"" : String).data
        ++ (instancesJoined s.defaultInstance).data)))
        ++ ((("\"\n    ENV REACT_APP_LOCK_TO_DEFAULT_INSTANCE=\"" : String).data
        ++ ((lockBit s.lockToDefaultInstance).data ++ ("\"\n    " : String).data))
        ++ (((if hasMultipleInstances s.defaultInstance then ("ENV REACT_APP_INSTANCE_SELECTION_MODE=\"" ++ s.instanceSelectionMode.toStr ++ "\"" : String) else "") : String).data ++ ("\n\n    EXPOSE 80\n    # Build:  docker build -t blorp-custom .\n    # Run:    docker run -d --name blorp -p 8080:80 blorp-custom\n  " : String).data)) := by
      simp only [List.append_assoc]
    have hpre : OccursIn (("REACT_APP_LOCK_TO_DEFAULT_INSTANCE=\"" ++ lockBit s.lockToDefaultInstance ++ "\"" : String)).data
        (("\n    FROM christianjuth/blorp:latest\n\n    ENV REACT_APP_NAME=\"" : String).data
      ++ ((jsTrimStr s.name).data
      ++ (("\"\n    ENV REACT_APP_DEFAULT_INSTANCE=\"" : String).data
      ++ ((instancesJoined s.defaultInstance).data
      ++ (("\"\n    ENV REACT_APP_LOCK_TO_DEFAULT_INSTANCE=\"" : String).data
      ++ ((lockBit s.lockToDefaultInstance).data
      ++ (("\"\n    " : String).data
      ++ (((if hasMultipleInstances s.defaultInstance then ("ENV REACT_APP_INSTANCE_SELECTION_MODE=\"" ++ s.instanceSelectionMode.toStr ++ "\"" : String) else "") : String).data
      ++ ("\n\n    EXPOSE 80\n    # Build:  docker build -t blorp-custom .\n    # Run:    docker run -d --name blorp -p 8080:80 blorp-custom\n  " : String).data)))))))) := by
      rw [hX]
      exact occursIn_sandwich _ _ hmid
    have hshaped : OccursIn ('R' :: ((("EACT_APP_LOCK_TO_DEFAULT_INSTANCE=\"" : String).data
        ++ (lockBit s.lockToDefaultInstance).data) ++ ['"'])) (("\n    FROM christianjuth/blorp:latest\n\n    ENV REACT_APP_NAME=\"" : String).data
      ++ ((jsTrimStr s.name).data
      ++ (("\"\n    ENV REACT_APP_DEFAULT_INSTANCE=\"" : String).data
      ++ ((instancesJoined s.defaultInstance).data
      ++ (("\"\n    ENV REACT_APP_LOCK_TO_DEFAULT_INSTANCE=\"" : String).data
      ++ ((lockBit s.lockToDefaultInstance).data
      ++ (("\"\n    " : String).data
      ++ (((if hasMultipleInstances s.defaultInstance then ("ENV REACT_APP_INSTANCE_SELECTION_MODE=\"" ++ s.instanceSelectionMode.toStr ++ "\"" : String) else "") : String).data
      ++ ("\n\n    EXPOSE 80\n    # Build:  docker build -t blorp-custom .\n    # Run:    docker run -d --name blorp -p 8080:80 blorp-custom\n  " : String).data)))))))) := by
      rw [hfragshape]
      exact hpre
    have hb : '\\' ∉ 'R' :: ((("EACT_APP_LOCK_TO_DEFAULT_INSTANCE=\"" : String).data
        ++ (lockBit s.lockToDefaultInstance).data) ++ ['"']) := by
      cases s.lockToDefaultInstance <;> decide
    have hnl : '\n' ∉ 'R' :: ((("EACT_APP_LOCK_TO_DEFAULT_INSTANCE=\"" : String).data
        ++ (lockBit s.lockToDefaultInstance).data) ++ ['"']) := by
      cases s.lockToDefaultInstance <;> decide
    have htrans := occursIn_dedentChars (by decide) (by decide) hb (by decide) hnl hshaped
    have htrim := occursIn_jsTrim (by decide) (by decide) htrans
    rw [houtdf, ← hfragshape]
    exact htrim
  · show OccursIn (("REACT_APP_LOCK_TO_DEFAULT_INSTANCE: \"" ++ lockBit s.lockToDefaultInstance ++ "\"" : String)).data (composeOf s).data
    have hfragshape : ('R' :: ((("EACT_APP_LOCK_TO_DEFAULT_INSTANCE: \"" : String).data
        ++ (lockBit s.lockToDefaultInstance).data) ++ ['"']))
        = (("REACT_APP_LOCK_TO_DEFAULT_INSTANCE: \"" ++ lockBit s.lockToDefaultInstance ++ "\"" : String)).data := by
      cases s.lockToDefaultInstance <;> decide
    have hmid : OccursIn (("REACT_APP_LOCK_TO_DEFAULT_INSTANCE: \"" ++ lockBit s.lockToDefaultInstance ++ "\"" : String)).data
        (("\"\n          REACT_APP_LOCK_TO_DEFAULT_INSTANCE: \"" : String).data
        ++ ((lockBit s.lockToDefaultInstance).data ++ ("\"" : String).data)) := by
      cases s.lockToDefaultInstance <;>
        exact ⟨("\"\n          " : String).data, ("" : String).data, by decide⟩
    have hX : (("\n    version: \"3.8\"\n\n    services:\n      blorp:\n        image: christianjuth/blorp:latest\n        container_name: blorp\n        ports:\n          - \"8080:80\"\n        environment:\n          REACT_APP_NAME: \"" : String).data
      ++ ((jsTrimStr s.name).data
      ++ (("\"\n          REACT_APP_DEFAULT_INSTANCE: \"" : String).data
      ++ ((instancesJoined s.defaultInstance).data
      ++ (("\"\n          REACT_APP_LOCK_TO_DEFAULT_INSTANCE: \"" : String).data
      ++ ((lockBit s.lockToDefaultInstance).data
      ++ (("\"" : String).data
      ++ (((if hasMultipleInstances s.defaultInstance then ("\n      REACT_APP_INSTANCE_SELECTION_MODE: \"" ++ s.instanceSelectionMode.toStr ++ "\"" : String) else "") : String).data
      ++ ("\n  " : String).data))))))))
        = (("\n    version: \"3.8\"\n\n    services:\n      blorp:\n        image: christianjuth/blorp:latest\n        container_name: blorp\n        ports:\n          - \"8080:80\"\n        environment:\n          REACT_APP_NAME: \"" : String).data
        ++ ((jsTrimStr s.name).data
        ++ (("\"\n          REACT_APP_DEFAULT_INSTANCE: \"" : String).data
        ++ (instancesJoined s.defaultInstance).data)))
        ++ ((("\"\n          REACT_APP_LOCK_TO_DEFAULT_INSTANCE: \"" : String).data
        ++ ((lockBit s.lockToDefaultInstance).data ++ ("\"" : String).data))
        ++ (((if hasMultipleInstances s.defaultInstance then ("\n      REACT_APP_INSTANCE_SELECTION_MODE: \"" ++ s.instanceSelectionMode.toStr ++ "\"" : String) else "") : String).data ++ ("\n  " : String).data)) := by
      simp only [List.append_assoc]
    have hpre : OccursIn (("REACT_APP_LOCK_TO_DEFAULT_INSTANCE: \"" ++ lockBit s.lockToDefaultInstance ++ "\"" : String)).data
        (("\n    version: \"3.8\"\n\n    services:\n      blorp:\n        image: christianjuth/blorp:latest\n        container_name: blorp\n        ports:\n          - \"8080:80\"\n        environment:\n          REACT_APP_NAME: \"" : String).data
      ++ ((jsTrimStr s.name).data
      ++ (("\"\n          REACT_APP_DEFAULT_INSTANCE: \"" : String).data
      ++ ((instancesJoined s.defaultInstance).data
      ++ (("\"\n          REACT_APP_LOCK_TO_DEFAULT_INSTANCE: \"" : String).data
      ++ ((lockBit s.lockToDefaultInstance).data
      ++ (("\"" : String).data
      ++ (((if hasMultipleInstances s.defaultInstance then ("\n      REACT_APP_INSTANCE_SELECTION_MODE: \"" ++ s.instanceSelectionMode.toStr ++ "\"" : String) else "") : String).data
      ++ ("\n  " : String).data)))))))) := by
      rw [hX]
      exact occursIn_sandwich _ _ hmid
    have hshaped : OccursIn ('R' :: ((("EACT_APP_LOCK_TO_DEFAULT_INSTANCE: \"" : String).data
        ++ (lockBit s.lockToDefaultInstance).data) ++ ['"'])) (("\n    version: \"3.8\"\n\n    services:\n      blorp:\n        image: christianjuth/blorp:latest\n        container_name: blorp\n        ports:\n          - \"8080:80\"\n        environment:\n          REACT_APP_NAME: \"" : String).data
      ++ ((jsTrimStr s.name).data
      ++ (("\"\n          REACT_APP_DEFAULT_INSTANCE: \"" : String).data
      ++ ((instancesJoined s.defaultInstance).data
      ++ (("\"\n          REACT_APP_LOCK_TO_DEFAULT_INSTANCE: \"" : String).data
      ++ ((lockBit s.lockToDefaultInstance).data
      ++ (("\"" : String).data
      ++ (((if hasMultipleInstances s.defaultInstance then ("\n      REACT_APP_INSTANCE_SELECTION_MODE: \"" ++ s.instanceSelectionMode.toStr ++ "\"" : String) else "") : String).data
      ++ ("\n  " : String).data)))))))) := by
      rw [hfragshape]
      exact hpre
    have hb : '\\' ∉ 'R' :: ((("EACT_APP_LOCK_TO_DEFAULT_INSTANCE: \"" : String).data
        ++ (lockBit s.lockToDefaultInstance).data) ++ ['"']) := by
      cases s.lockToDefaultInstance <;> decide
    have hnl : '\n' ∉ 'R' :: ((("EACT_APP_LOCK_TO_DEFAULT_INSTANCE: \"" : String).data
        ++ (lockBit s.lockToDefaultInstance).data) ++ ['"']) := by
      cases s.lockToDefaultInstance <;> decide
    have htrans := occursIn_dedentChars (by decide) (by decide) hb (by decide) hnl hshaped
    have htrim := occursIn_jsTrim (by decide) (by decide) htrans
    rw [houtco, ← hfragshape]
    exact htrim
  · show OccursIn ("- name: REACT_APP_LOCK_TO_DEFAULT_INSTANCE" : String).data (kubeOf s).data
    have hfragshape : ('-' :: ((" name: REACT_APP_LOCK_TO_DEFAULT_INSTANC" : String).data ++ ['E']))
        = ("- name: REACT_APP_LOCK_TO_DEFAULT_INSTANCE" : String).data := by decide
    have hmid : OccursIn ("- name: REACT_APP_LOCK_TO_DEFAULT_INSTANCE" : String).data ("\"\n                - name: REACT_APP_LOCK_TO_DEFAULT_INSTANCE\n                  value: \"" : String).data :=
      ⟨("\"\n                " : String).data, ("\n                  value: \"" : String).data, by decide⟩
    have hX : (("\n    apiVersion: apps/v1\n    kind: Deployment\n    metadata:\n      name: blorp\n      labels:\n        app: blorp\n    spec:\n      replicas: 1\n      selector:\n        matchLabels:\n          app: blorp\n      template:\n        metadata:\n          labels:\n            app: blorp\n        spec:\n          containers:\n            - name: blorp\n              image: christianjuth/blorp:latest\n              ports:\n                - containerPort: 80\n              env:\n                - name: REACT_APP_NAME\n                  value: \"" : String).data
      ++ ((jsTrimStr s.name).data
      ++ (("\"\n                - name: REACT_APP_DEFAULT_INSTANCE\n                  value: \"" : String).data
      ++ ((instancesJoined s.defaultInstance).data
      ++ (("\"\n                - name: REACT_APP_LOCK_TO_DEFAULT_INSTANCE\n                  value: \"" : String).data
      ++ ((lockBit s.lockToDefaultInstance).data
      ++ (("\"\n                " : String).data
      ++ (((if hasMultipleInstances s.defaultInstance then dedent ("\n        - name: REACT_APP_INSTANCE_SELECTION_MODE\n          value: \"" ++ s.instanceSelectionMode.toStr ++ "\"") else "") : String).data
      ++ ("\n    ---\n    apiVersion: v1\n    kind: Service\n    metadata:\n      name: blorp\n      labels:\n        app: blorp\n    spec:\n      selector:\n        app: blorp\n      type: NodePort\n      ports:\n        - name: http\n          port: 80\n          targetPort: 80\n          nodePort: 30080\n  " : String).data))))))))
        = (("\n    apiVersion: apps/v1\n    kind: Deployment\n    metadata:\n      name: blorp\n      labels:\n        app: blorp\n    spec:\n      replicas: 1\n      selector:\n        matchLabels:\n          app: blorp\n      template:\n        metadata:\n          labels:\n            app: blorp\n        spec:\n          containers:\n            - name: blorp\n              image: christianjuth/blorp:latest\n              ports:\n                - containerPort: 80\n              env:\n                - name: REACT_APP_NAME\n                  value: \"" : String).data
        ++ ((jsTrimStr s.name).data
        ++ (("\"\n                - name: REACT_APP_DEFAULT_INSTANCE\n                  value: \"" : String).data
        ++ (instancesJoined s.defaultInstance).data)))
        ++ (("\"\n                - name: REACT_APP_LOCK_TO_DEFAULT_INSTANCE\n                  value: \"" : String).data
        ++ ((lockBit s.lockToDefaultInstance).data
        ++ (("\"\n                " : String).data
        ++ (((if hasMultipleInstances s.defaultInstance then dedent ("\n        - name: REACT_APP_INSTANCE_SELECTION_MODE\n          value: \"" ++ s.instanceSelectionMode.toStr ++ "\"") else "") : String).data ++ ("\n    ---\n    apiVersion: v1\n    kind: Service\n    metadata:\n      name: blorp\n      labels:\n        app: blorp\n    spec:\n      selector:\n        app: blorp\n      type: NodePort\n      ports:\n        - name: http\n          port: 80\n          targetPort: 80\n          nodePort: 30080\n  " : String).data)))) := by
      simp only [List.append_assoc]
    have hpre : OccursIn ("- name: REACT_APP_LOCK_TO_DEFAULT_INSTANCE" : String).data (("\n    apiVersion: apps/v1\n    kind: Deployment\n    metadata:\n      name: blorp\n      labels:\n        app: blorp\n    spec:\n      replicas: 1\n      selector:\n        matchLabels:\n          app: blorp\n      template:\n        metadata:\n          labels:\n            app: blorp\n        spec:\n          containers:\n            - name: blorp\n              image: christianjuth/blorp:latest\n              ports:\n                - containerPort: 80\n              env:\n                - name: REACT_APP_NAME\n                  value: \"" : String).data
      ++ ((jsTrimStr s.name).data
      ++ (("\"\n                - name: REACT_APP_DEFAULT_INSTANCE\n                  value: \"" : String).data
      ++ ((instancesJoined s.defaultInstance).data
      ++ (("\"\n                - name: REACT_APP_LOCK_TO_DEFAULT_INSTANCE\n                  value: \"" : String).data
      ++ ((lockBit s.lockToDefaultInstance).data
      ++ (("\"\n                " : String).data
      ++ (((if hasMultipleInstances s.defaultInstance then dedent ("\n        - name: REACT_APP_INSTANCE_SELECTION_MODE\n          value: \"" ++ s.instanceSelectionMode.toStr ++ "\"") else "") : String).data
      ++ ("\n    ---\n    apiVersion: v1\n    kind: Service\n    metadata:\n      name: blorp\n      labels:\n        app: blorp\n    spec:\n      selector:\n        app: blorp\n      type: NodePort\n      ports:\n        - name: http\n          port: 80\n          targetPort: 80\n          nodePort: 30080\n  " : String).data)))))))) := by
      rw [hX]
      exact occursIn_sandwich _ _ hmid
    have hshaped : OccursIn ('-' :: ((" name: REACT_APP_LOCK_TO_DEFAULT_INSTANC" : String).data ++ ['E'])) (("\n    apiVersion: apps/v1\n    kind: Deployment\n    metadata:\n      name: blorp\n      labels:\n        app: blorp\n    spec:\n      replicas: 1\n      selector:\n        matchLabels:\n          app: blorp\n      template:\n        metadata:\n          labels:\n            app: blorp\n        spec:\n          containers:\n            - name: blorp\n              image: christianjuth/blorp:latest\n              ports:\n                - containerPort: 80\n              env:\n                - name: REACT_APP_NAME\n                  value: \"" : String).data
      ++ ((jsTrimStr s.name).data
      ++ (("\"\n                - name: REACT_APP_DEFAULT_INSTANCE\n                  value: \"" : String).data
      ++ ((instancesJoined s.defaultInstance).data
      ++ (("\"\n                - name: REACT_APP_LOCK_TO_DEFAULT_INSTANCE\n                  value: \"" : String).data
      ++ ((lockBit s.lockToDefaultInstance).data
      ++ (("\"\n                " : String).data
      ++ (((if hasMultipleInstances s.defaultInstance then dedent ("\n        - name: REACT_APP_INSTANCE_SELECTION_MODE\n          value: \"" ++ s.instanceSelectionMode.toStr ++ "\"") else "") : String).data
      ++ ("\n    ---\n    apiVersion: v1\n    kind: Service\n    metadata:\n      name: blorp\n      labels:\n        app: blorp\n    spec:\n      selector:\n        app: blorp\n      type: NodePort\n      ports:\n        - name: http\n          port: 80\n          targetPort: 80\n          nodePort: 30080\n  " : String).data)))))))) := by
      rw [hfragshape]
      exact hpre
    have htrans := occursIn_dedentChars (by decide) (by decide) (by decide) (by decide)
      (by decide) hshaped
    have htrim := occursIn_jsTrim (by decide) (by decide) htrans
    rw [houtku, ← hfragshape]
    exact htrim
  · show OccursIn (("value: \"" ++ lockBit s.lockToDefaultInstance ++ "\"" : String)).data (kubeOf s).data
    have hfragshape : ('v' :: ((("alue: \"" : String).data
        ++ (lockBit s.lockToDefaultInstance).data) ++ ['"']))
        = (("value: \"" ++ lockBit s.lockToDefaultInstance ++ "\"" : String)).data := by
      cases s.lockToDefaultInstance <;> decide
    have hmid : OccursIn (("value: \"" ++ lockBit s.lockToDefaultInstance ++ "\"" : String)).data
        (("\"\n                - name: REACT_APP_LOCK_TO_DEFAULT_INSTANCE\n                  value: \"" : String).data
        ++ ((lockBit s.lockToDefaultInstance).data ++ ("\"\n                " : String).data)) := by
      cases s.lockToDefaultInstance <;>
        exact ⟨("\"\n                - name: REACT_APP_LOCK_TO_DEFAULT_INSTANCE\n                  " : String).data, ("\n                " : String).data, by decide⟩
    have hX : (("\n    apiVersion: apps/v1\n    kind: Deployment\n    metadata:\n      name: blorp\n      labels:\n        app: blorp\n    spec:\n      replicas: 1\n      selector:\n        matchLabels:\n          app: blorp\n      template:\n        metadata:\n          labels:\n            app: blorp\n        spec:\n          containers:\n            - name: blorp\n              image: christianjuth/blorp:latest\n              ports:\n                - containerPort: 80\n              env:\n                - name: REACT_APP_NAME\n                  value: \"" : String).data
      ++ ((jsTrimStr s.name).data
      ++ (("\"\n                - name: REACT_APP_DEFAULT_INSTANCE\n                  value: \"" : String).data
      ++ ((instancesJoined s.defaultInstance).data
      ++ (("\"\n                - name: REACT_APP_LOCK_TO_DEFAULT_INSTANCE\n                  value: \"" : String).data
      ++ ((lockBit s.lockToDefaultInstance).data
      ++ (("\"\n                " : String).data
      ++ (((if hasMultipleInstances s.defaultInstance then dedent ("\n        - name: REACT_APP_INSTANCE_SELECTION_MODE\n          value: \"" ++ s.instanceSelectionMode.toStr ++ "\"") else "") : String).data
      ++ ("\n    ---\n    apiVersion: v1\n    kind: Service\n    metadata:\n      name: blorp\n      labels:\n        app: blorp\n    spec:\n      selector:\n        app: blorp\n      type: NodePort\n      ports:\n        - name: http\n          port: 80\n          targetPort: 80\n          nodePort: 30080\n  " : String).data))))))))
        = (("\n    apiVersion: apps/v1\n    kind: Deployment\n    metadata:\n      name: blorp\n      labels:\n        app: blorp\n    spec:\n      replicas: 1\n      selector:\n        matchLabels:\n          app: blorp\n      template:\n        metadata:\n          labels:\n            app: blorp\n        spec:\n          containers:\n            - name: blorp\n              image: christianjuth/blorp:latest\n              ports:\n                - containerPort: 80\n              env:\n                - name: REACT_APP_NAME\n                  value: \"" : String).data
        ++ ((jsTrimStr s.name).data
        ++ (("\"\n                - name: REACT_APP_DEFAULT_INSTANCE\n                  value: \"" : String).data
        ++ (instancesJoined s.defaultInstance).data)))
        ++ ((("\"\n                - name: REACT_APP_LOCK_TO_DEFAULT_INSTANCE\n                  value: \"" : String).data
        ++ ((lockBit s.lockToDefaultInstance).data ++ ("\"\n                " : String).data))
        ++ (((if hasMultipleInstances s.defaultInstance then dedent ("\n        - name: REACT_APP_INSTANCE_SELECTION_MODE\n          value: \"" ++ s.instanceSelectionMode.toStr ++ "\"") else "") : String).data ++ ("\n    ---\n    apiVersion: v1\n    kind: Service\n    metadata:\n      name: blorp\n      labels:\n        app: blorp\n    spec:\n      selector:\n        app: blorp\n      type: NodePort\n      ports:\n        - name: http\n          port: 80\n          targetPort: 80\n          nodePort: 30080\n  " : String).data)) := by
      simp only [List.append_assoc]
    have hpre : OccursIn (("value: \"" ++ lockBit s.lockToDefaultInstance ++ "\"" : String)).data
        (("\n    apiVersion: apps/v1\n    kind: Deployment\n    metadata:\n      name: blorp\n      labels:\n        app: blorp\n    spec:\n      replicas: 1\n      selector:\n        matchLabels:\n          app: blorp\n      template:\n        metadata:\n          labels:\n            app: blorp\n        spec:\n          containers:\n            - name: blorp\n              image: christianjuth/blorp:latest\n              ports:\n                - containerPort: 80\n              env:\n                - name: REACT_APP_NAME\n                  value: \"" : String).data
      ++ ((jsTrimStr s.name).data
      ++ (("\"\n                - name: REACT_APP_DEFAULT_INSTANCE\n                  value: \"" : String).data
      ++ ((instancesJoined s.defaultInstance).data
      ++ (("\"\n                - name: REACT_APP_LOCK_TO_DEFAULT_INSTANCE\n                  value: \"" : String).data
      ++ ((lockBit s.lockToDefaultInstance).data
      ++ (("\"\n                " : String).data
      ++ (((if hasMultipleInstances s.defaultInstance then dedent ("\n        - name: REACT_APP_INSTANCE_SELECTION_MODE\n          value: \"" ++ s.instanceSelectionMode.toStr ++ "\"") else "") : String).data
      ++ ("\n    ---\n    apiVersion: v1\n    kind: Service\n    metadata:\n      name: blorp\n      labels:\n        app: blorp\n    spec:\n      selector:\n        app: blorp\n      type: NodePort\n      ports:\n        - name: http\n          port: 80\n          targetPort: 80\n          nodePort: 30080\n  " : String).data)))))))) := by
      rw [hX]
      exact occursIn_sandwich _ _ hmid
    have hshaped : OccursIn ('v' :: ((("alue: \"" : String).data
        ++ (lockBit s.lockToDefaultInstance).data) ++ ['"'])) (("\n    apiVersion: apps/v1\n    kind: Deployment\n    metadata:\n      name: blorp\n      labels:\n        app: blorp\n    spec:\n      replicas: 1\n      selector:\n        matchLabels:\n          app: blorp\n      template:\n        metadata:\n          labels:\n            app: blorp\n        spec:\n          containers:\n            - name: blorp\n              image: christianjuth/blorp:latest\n              ports:\n                - containerPort: 80\n              env:\n                - name: REACT_APP_NAME\n                  value: \"" : String).data
      ++ ((jsTrimStr s.name).data
      ++ (("\"\n                - name: REACT_APP_DEFAULT_INSTANCE\n                  value: \"" : String).data
      ++ ((instancesJoined s.defaultInstance).data
      ++ (("\"\n                - name: REACT_APP_LOCK_TO_DEFAULT_INSTANCE\n                  value: \"" : String).data
      ++ ((lockBit s.lockToDefaultInstance).data
      ++ (("\"\n                " : String).data
      ++ (((if hasMultipleInstances s.defaultInstance then dedent ("\n        - name: REACT_APP_INSTANCE_SELECTION_MODE\n          value: \"" ++ s.instanceSelectionMode.toStr ++ "\"") else "") : String).data
      ++ ("\n    ---\n    apiVersion: v1\n    kind: Service\n    metadata:\n      name: blorp\n      labels:\n        app: blorp\n    spec:\n      selector:\n        app: blorp\n      type: NodePort\n      ports:\n        - name: http\n          port: 80\n          targetPort: 80\n          nodePort: 30080\n  " : String).data)))))))) := by
      rw [hfragshape]
      exact hpre
    have hb : '\\' ∉ 'v' :: ((("alue: \"" : String).data
        ++ (lockBit s.lockToDefaultInstance).data) ++ ['"']) := by
      cases s.lockToDefaultInstance <;> decide
    have hnl : '\n' ∉ 'v' :: ((("alue: \"" : String).data
        ++ (lockBit s.lockToDefaultInstance).data) ++ ['"']) := by
      cases s.lockToDefaultInstance <;> decide
    have htrans := occursIn_dedentChars (by decide) (by decide) hb (by decide) hnl hshaped
    have htrim := occursIn_jsTrim (by decide) (by decide) htrans
    rw [houtku, ← hfragshape]
    exact htrim


end Blorp
